import Mathlib

/-!
Verification of the EffectForge effect-generation and compliance-scoring
pipeline.  The TypeScript sources are shallowly embedded: JavaScript numbers
are modelled as exact rationals (`ℚ`), strings as `List Char`, nullable
fields as `Option`, and thrown exceptions as `Except`.  `Math.round` is
modelled as round-half-up on rationals.  String interpolation used only for
human-readable `details` messages is not modelled (no claim depends on it).
-/

set_option maxRecDepth 4000

/-- Character class of the JavaScript `\s` regex class (ASCII fragment). -/
def isWS (c : Char) : Bool :=
  c = ' ' || c = '\t' || c = '\n' || c = '\r' || c = '\x0b' || c = '\x0c'

/-- Character class of the JavaScript `\w` regex class (ASCII fragment). -/
def isWordChar (c : Char) : Bool :=
  c.isAlpha || c.isDigit || c = '_'

/-- `JavaScript Math.round`: round half up. -/
def jsRound (q : ℚ) : ℤ := ⌊q + 1 / 2⌋

/-- `Math.min` on two numbers, written so that the kernel can evaluate it. -/
def jsMin (a b : ℚ) : ℚ := if a ≤ b then a else b

/-- `Math.max` on two numbers, written so that the kernel can evaluate it. -/
def jsMax (a b : ℚ) : ℚ := if a ≤ b then b else a

/-- Kernel-evaluable maximum on `ℕ`. -/
def natMax (a b : ℕ) : ℕ := if a ≤ b then b else a

/-- A rational literal in lowest terms, built from the raw constructor so
that the kernel can evaluate comparisons against it (the decimal-literal
coercion `Rat.ofScientific` is irreducible). -/
def ratLit (n : ℤ) (d : ℕ) (hd : d ≠ 0 := by decide)
    (hc : n.natAbs.Coprime d := by decide) : ℚ := ⟨n, d, hd, hc⟩

theorem ratLit_eq (n : ℤ) (d : ℕ) (hd : d ≠ 0) (hc : n.natAbs.Coprime d) :
    ratLit n d hd hc = (n : ℚ) / (d : ℚ) := by
  rw [ratLit, Rat.mk'_eq_divInt, Rat.divInt_eq_div]
  norm_num

theorem jsMin_eq_min (a b : ℚ) : jsMin a b = min a b := by
  simp [jsMin, min_def]

theorem jsMax_eq_max (a b : ℚ) : jsMax a b = max a b := by
  simp [jsMax, max_def]

theorem natMax_eq_max (a b : ℕ) : natMax a b = max a b := by
  simp [natMax, Nat.max_def]

/-- Boolean test: `p` is a leading segment of `cs`. -/
def prefixB : List Char → List Char → Bool
  | [], _ => true
  | _ :: _, [] => false
  | p :: ps, c :: cs => p = c && prefixB ps cs

/-- Boolean test: `p` occurs somewhere inside `cs` (JavaScript
`String.prototype.includes`). -/
def substrB : List Char → List Char → Bool
  | p, [] => prefixB p []
  | p, c :: cs => prefixB p (c :: cs) || substrB p cs

theorem prefixB_iff (p cs : List Char) :
    prefixB p cs = true ↔ ∃ r, cs = p ++ r := by
  induction p generalizing cs with
  | nil => simp [prefixB]
  | cons x xs ih =>
    cases cs with
    | nil => simp [prefixB]
    | cons c cs =>
      simp only [prefixB, Bool.and_eq_true, decide_eq_true_eq, ih]
      constructor
      · rintro ⟨rfl, r, rfl⟩; exact ⟨r, rfl⟩
      · rintro ⟨r, h⟩
        simp only [List.cons_append, List.cons.injEq] at h
        exact ⟨h.1.symm, r, h.2⟩

theorem substrB_iff (p cs : List Char) :
    substrB p cs = true ↔ ∃ l r, cs = l ++ p ++ r := by
  induction cs with
  | nil =>
    simp only [substrB, prefixB_iff]
    constructor
    · rintro ⟨r, h⟩; exact ⟨[], r, by simpa using h⟩
    · rintro ⟨l, r, h⟩
      have h' : l ++ (p ++ r) = [] := by simpa using h.symm
      rw [List.append_eq_nil] at h'
      have h'' := h'.2
      rw [List.append_eq_nil] at h''
      exact ⟨[], by simp [h''.1]⟩
  | cons c cs ih =>
    simp only [substrB, Bool.or_eq_true, prefixB_iff, ih]
    constructor
    · rintro (⟨r, h⟩ | ⟨l, r, h⟩)
      · exact ⟨[], r, by simpa using h⟩
      · exact ⟨c :: l, r, by simp [h]⟩
    · rintro ⟨l, r, h⟩
      cases l with
      | nil => exact Or.inl ⟨r, by simpa using h⟩
      | cons x xs =>
        simp only [List.cons_append, List.cons.injEq] at h
        exact Or.inr ⟨xs, r, h.2⟩

theorem substrB_append_right {p b : List Char} (a : List Char)
    (h : substrB p b = true) : substrB p (a ++ b) = true := by
  rw [substrB_iff] at h ⊢
  obtain ⟨l, r, rfl⟩ := h
  exact ⟨a ++ l, r, by simp⟩

theorem substrB_append_left {p a : List Char} (b : List Char)
    (h : substrB p a = true) : substrB p (a ++ b) = true := by
  rw [substrB_iff] at h ⊢
  obtain ⟨l, r, rfl⟩ := h
  exact ⟨l, r ++ b, by simp⟩

/-! ### Matcher combinators

Small combinators used to embed the handful of concrete regular expressions
that appear in the sources (`particleCount\s*=\s*\d+`, `new Array\(\d+\)`,
`for\s*\(\s*var\s+i\s*=\s*0`).  Each matcher tries to match at the head of
the input and returns the remaining input on success. -/

/-- Consume the literal `l` from the head of the input. -/
def stripLit : List Char → List Char → Option (List Char)
  | [], cs => some cs
  | _ :: _, [] => none
  | x :: xs, c :: cs => if c = x then stripLit xs cs else none

/-- Consume one expected character. -/
def stripChar (x : Char) : List Char → Option (List Char)
  | [] => none
  | c :: cs => if c = x then some cs else none

/-- Consume `\s*` (greedy). -/
def dropWS (cs : List Char) : List Char := cs.dropWhile isWS

/-- Consume `\s+` (greedy, at least one). -/
def dropWS1 : List Char → Option (List Char)
  | [] => none
  | c :: cs => if isWS c then some (dropWS cs) else none

theorem stripLit_length {l cs r : List Char} (h : stripLit l cs = some r) :
    r.length + l.length = cs.length := by
  induction l generalizing cs with
  | nil => simp [stripLit] at h; simp [h]
  | cons x xs ih =>
    cases cs with
    | nil => simp [stripLit] at h
    | cons c cs =>
      simp only [stripLit] at h
      split at h
      · have := ih h
        simp only [List.length_cons]
        omega
      · exact absurd h (by simp)

theorem stripChar_length {x : Char} {cs r : List Char}
    (h : stripChar x cs = some r) : r.length + 1 = cs.length := by
  cases cs with
  | nil => simp [stripChar] at h
  | cons c cs =>
    simp only [stripChar] at h
    split at h
    · simp_all
    · exact absurd h (by simp)

theorem dropWS_length_le (cs : List Char) : (dropWS cs).length ≤ cs.length :=
  (List.dropWhile_sublist _).length_le

theorem dropWS1_length {cs r : List Char} (h : dropWS1 cs = some r) :
    r.length < cs.length := by
  cases cs with
  | nil => simp [dropWS1] at h
  | cons c cs =>
    simp only [dropWS1] at h
    split at h
    · cases h
      exact Nat.lt_succ_of_le (dropWS_length_le cs)
    · exact absurd h (by simp)

theorem span_snd_length_le (p : Char → Bool) (cs : List Char) :
    (cs.span p).2.length ≤ cs.length := by
  rw [List.span_eq_take_drop]
  exact (List.dropWhile_sublist _).length_le

/-! ### Global / first string replacement (JavaScript `String.replace`) -/

/-- Global replacement of a literal pattern (`str.replace(/pat/g, repl)` for
a pattern with no metacharacters).  The replacement text is not rescanned. -/
def replaceAllLit (pat repl : List Char) : List Char → List Char
  | [] => []
  | c :: cs =>
    if pat ≠ [] ∧ prefixB pat (c :: cs) = true then
      repl ++ replaceAllLit pat repl (List.drop (pat.length - 1) cs)
    else
      c :: replaceAllLit pat repl cs
termination_by cs => cs.length
decreasing_by
  · simp only [List.length_cons]
    have := List.length_drop (pat.length - 1) cs
    omega
  · simp [Nat.lt_succ_self]

/-- First-occurrence replacement of a literal pattern
(`str.replace(pat, repl)` with a plain-string pattern). -/
def replaceFirstLit (pat repl : List Char) : List Char → List Char
  | [] => []
  | c :: cs =>
    if pat ≠ [] ∧ prefixB pat (c :: cs) = true then
      repl ++ List.drop (pat.length - 1) cs
    else
      c :: replaceFirstLit pat repl cs

/-! ### The `particleCount\s*=\s*\d+` pattern -/

def litPC : List Char := "particleCount".data

/-- Head match of `particleCount\s*=\s*\d+`: returns the captured digit run
and the rest of the input. -/
def headmatchPC (cs : List Char) : Option (List Char × List Char) :=
  match stripLit litPC cs with
  | none => none
  | some r1 =>
    match stripChar '=' (dropWS r1) with
    | none => none
    | some r2 =>
      match (dropWS r2).span Char.isDigit with
      | (ds, rest) => if ds = [] then none else some (ds, rest)

theorem headmatchPC_length {cs : List Char} {ds rest : List Char}
    (h : headmatchPC cs = some (ds, rest)) : rest.length < cs.length := by
  unfold headmatchPC at h
  cases h1 : stripLit litPC cs with
  | none => simp [h1] at h
  | some r1 =>
    simp only [h1] at h
    cases h2 : stripChar '=' (dropWS r1) with
    | none => simp [h2] at h
    | some r2 =>
      simp only [h2] at h
      cases h3 : (dropWS r2).span Char.isDigit with
      | mk ds2 rest2 =>
        simp only [h3] at h
        split at h
        · simp at h
        · rw [Option.some.injEq, Prod.mk.injEq] at h
          obtain ⟨rfl, rfl⟩ := h
          have e1 := stripLit_length h1
          have e2 := stripChar_length h2
          have e3 := dropWS_length_le r1
          have e4 := dropWS_length_le r2
          have e5 : rest2.length ≤ (dropWS r2).length := by
            have e := span_snd_length_le Char.isDigit (dropWS r2)
            rw [h3] at e
            exact e
          have e6 : litPC.length = 13 := by decide
          omega

/-- Worker for `replaceAllPC`, structurally recursive on a fuel argument so
that the kernel can evaluate it; one unit of fuel is spent per output
position, and `headmatchPC` always consumes at least one character, so
`cs.length` fuel always suffices. -/
def replaceAllPCGo (ds : List Char) : ℕ → List Char → List Char
  | _, [] => []
  | 0, cs => cs
  | fuel + 1, c :: cs =>
    match headmatchPC (c :: cs) with
    | some (_, rest) =>
      litPC ++ (' ' :: '=' :: ' ' :: ds) ++ replaceAllPCGo ds fuel rest
    | none => c :: replaceAllPCGo ds fuel cs

/-- Global rewrite of `particleCount\s*=\s*\d+` to
`particleCount = ` followed by the digit run `ds`. -/
def replaceAllPC (ds cs : List Char) : List Char :=
  replaceAllPCGo ds cs.length cs

/-- Worker for `extractPCAssigns`, fuelled like `replaceAllPCGo`. -/
def extractPCAssignsGo : ℕ → List Char → List (List Char)
  | _, [] => []
  | 0, _ => []
  | fuel + 1, c :: cs =>
    match headmatchPC (c :: cs) with
    | some (ds, rest) => ds :: extractPCAssignsGo fuel rest
    | none => extractPCAssignsGo fuel cs

/-- The sequence of numbers (digit runs) assigned to `particleCount` in a
piece of code, scanning left to right with non-overlapping matches — the
same scan order used by a global regex replacement. -/
def extractPCAssigns (cs : List Char) : List (List Char) :=
  extractPCAssignsGo cs.length cs

/-! ### The `new Array\(\d+\)` pattern -/

def headmatchNewArray (cs : List Char) : Option (List Char) :=
  match stripLit "new Array(".data cs with
  | none => none
  | some r1 =>
    match r1.span Char.isDigit with
    | (ds, r2) => if ds = [] then none else stripChar ')' r2

theorem headmatchNewArray_length {cs rest : List Char}
    (h : headmatchNewArray cs = some rest) : rest.length < cs.length := by
  unfold headmatchNewArray at h
  cases h1 : stripLit "new Array(".data cs with
  | none => simp [h1] at h
  | some r1 =>
    simp only [h1] at h
    cases h3 : r1.span Char.isDigit with
    | mk ds2 rest2 =>
      simp only [h3] at h
      split at h
      · simp at h
      · have e1 := stripLit_length h1
        have e2 := stripChar_length h
        have e3 : rest2.length ≤ r1.length := by
          have e := span_snd_length_le Char.isDigit r1
          rw [h3] at e
          exact e
        have e4 : ("new Array(".data).length = 10 := by decide
        omega

def replaceAllNewArray (repl : List Char) : List Char → List Char
  | [] => []
  | c :: cs =>
    match h : headmatchNewArray (c :: cs) with
    | some rest => repl ++ replaceAllNewArray repl rest
    | none => c :: replaceAllNewArray repl cs
termination_by cs => cs.length
decreasing_by
  · exact headmatchNewArray_length h
  · simp [Nat.lt_succ_self]

/-! ### The `for\s*\(\s*var\s+i\s*=\s*0` pattern -/

def headmatchForVar (cs : List Char) : Option (List Char) := do
  let r1 ← stripLit "for".data cs
  let r2 ← stripChar '(' (dropWS r1)
  let r3 ← stripLit "var".data (dropWS r2)
  let r4 ← dropWS1 r3
  let r5 ← stripChar 'i' r4
  let r6 ← stripChar '=' (dropWS r5)
  stripChar '0' (dropWS r6)

theorem headmatchForVar_length {cs rest : List Char}
    (h : headmatchForVar cs = some rest) : rest.length < cs.length := by
  unfold headmatchForVar at h
  simp only [bind, Option.bind_eq_some] at h
  obtain ⟨r1, h1, r2, h2, r3, h3, r4, h4, r5, h5, r6, h6, h7⟩ := h
  have e1 := stripLit_length h1
  have e2 := stripChar_length h2
  have e3 := stripLit_length h3
  have e4 := dropWS1_length h4
  have e5 := stripChar_length h5
  have e6 := stripChar_length h6
  have e7 := stripChar_length h7
  have e8 := dropWS_length_le r1
  have e9 := dropWS_length_le r2
  have e10 := dropWS_length_le r5
  have e11 := dropWS_length_le r6
  have e12 : ("for".data).length = 3 := by decide
  have e13 : ("var".data).length = 3 := by decide
  omega

def replaceAllForVar (repl : List Char) : List Char → List Char
  | [] => []
  | c :: cs =>
    match h : headmatchForVar (c :: cs) with
    | some rest => repl ++ replaceAllForVar repl rest
    | none => c :: replaceAllForVar repl cs
termination_by cs => cs.length
decreasing_by
  · exact headmatchForVar_length h
  · simp [Nat.lt_succ_self]

/-! ### JavaScript `String.prototype.split(/\s+/)` -/

/-- Split on maximal nonempty whitespace runs, keeping the empty pieces that
JavaScript produces at the boundaries (`"".split(/\s+/)` is `[""]`,
`" a".split(/\s+/)` is `["", "a"]`, `"a "` gives `["a", ""]`). -/
def splitWS : List Char → List (List Char)
  | [] => [[]]
  | c :: cs =>
    let r := splitWS cs
    if isWS c then
      match cs with
      | c2 :: _ => if isWS c2 then r else [] :: r
      | [] => [] :: r
    else
      match r with
      | [] => [[c]]
      | t :: ts => (c :: t) :: ts

/-!
## The server AI engine (`src/server/services/ai-engine.ts`)

`AIEngineService` keeps a private `isInitialized` flag; the public
operations throw `'AI Engine not initialized'` before `initialize()` has
completed.  The flag is passed explicitly; thrown errors are `Except.error`.
-/

/-- The shape shared by the server and client `EffectDNA` interfaces. -/
structure EmotionalProfile where
  energy : ℚ
  complexity : ℚ
  elegance : ℚ
deriving DecidableEq

structure TechnicalRequirements where
  performance : ℚ
  memory : ℚ
  compatibility : List (List Char)
deriving DecidableEq

structure EffectDNA where
  primaryConcepts : List (List Char)
  emotionalProfile : EmotionalProfile
  technicalRequirements : TechnicalRequirements
  confidenceScore : ℚ
  constitutionCompliance : Bool
deriving DecidableEq

namespace AiEngine

def effectKeywords : List (List Char) :=
  (["particle", "explosion", "fade", "glow", "blur", "transition",
    "animation", "rotate", "scale", "translate", "color", "gradient",
    "shadow", "light", "dark", "bright", "smooth", "rough",
    "fast", "slow", "spiral", "wave", "pulse", "bounce",
    "plasma", "fire", "water", "earth", "air", "energy",
    "magic", "cosmic", "digital", "neon", "chrome", "glass"] :
    List String).map String.data

def tokenizeContent (content : List Char) : List (List Char) :=
  let lowered := content.map Char.toLower
  let cleaned := lowered.map fun c => if isWordChar c || isWS c then c else ' '
  (splitWS cleaned).filter fun t => 2 < t.length

/-- Build the concept frequency table in first-seen key order
(JavaScript `Map` preserves insertion order). -/
def bumpCount : List (List Char × ℕ) → List Char → List (List Char × ℕ)
  | [], t => [(t, 1)]
  | (k, n) :: rest, t =>
    if k = t then (k, n + 1) :: rest else (k, n) :: bumpCount rest t

/-- Stable insertion for a descending-by-count sort: the new entry goes
after every entry with a count that is at least as large, which is the
order a stable `sort((a, b) => b[1] - a[1])` produces. -/
def insertDesc (x : List Char × ℕ) : List (List Char × ℕ) → List (List Char × ℕ)
  | [] => [x]
  | y :: ys => if y.2 < x.2 then x :: y :: ys else y :: insertDesc x ys

def sortDescStable (l : List (List Char × ℕ)) : List (List Char × ℕ) :=
  l.foldl (fun acc x => insertDesc x acc) []

def extractConcepts (tokens : List (List Char)) : List (List Char) :=
  let conceptFreq := tokens.foldl
    (fun acc t => if decide (t ∈ effectKeywords) then bumpCount acc t else acc) []
  ((sortDescStable conceptFreq).take 5).map Prod.fst

def calculateWordScore (tokens words : List (List Char)) : ℚ :=
  (((tokens.filter fun t => decide (t ∈ words)).length : ℕ) : ℚ)
    / ((natMax tokens.length 1 : ℕ) : ℚ)

def energyWords : List (List Char) :=
  (["fast", "explosive", "dynamic", "powerful", "intense"] : List String).map
    String.data

def complexityWords : List (List Char) :=
  (["intricate", "detailed", "layered", "sophisticated"] : List String).map
    String.data

def eleganceWords : List (List Char) :=
  (["smooth", "graceful", "refined", "subtle", "clean"] : List String).map
    String.data

def analyzeEmotionalProfile (tokens : List (List Char)) : EmotionalProfile :=
  { energy := jsMin 1 (calculateWordScore tokens energyWords)
    complexity := jsMin 1 (calculateWordScore tokens complexityWords)
    elegance := jsMin 1 (calculateWordScore tokens eleganceWords) }

def heavyWords : List (List Char) :=
  (["particle", "complex", "detailed", "3d"] : List String).map String.data

def lightWords : List (List Char) :=
  (["simple", "basic", "minimal", "clean"] : List String).map String.data

def analyzeTechnicalRequirements (tokens : List (List Char)) :
    TechnicalRequirements :=
  let complexity := calculateWordScore tokens heavyWords
    - calculateWordScore tokens lightWords
  { performance := jsMax 30 (60 - complexity * 30)
    memory := jsMax 64 (256 + complexity * 256)
    compatibility := (["web", "mobile", "desktop"] : List String).map String.data }

def calculateConfidence (tokens concepts : List (List Char)) : ℚ :=
  let vocabularyMatches :=
    (tokens.filter fun t => decide (t ∈ effectKeywords)).length
  let coverage : ℚ := ((vocabularyMatches : ℕ) : ℚ)
    / ((natMax tokens.length 1 : ℕ) : ℚ)
  let conceptStrength : ℚ := ((concepts.length : ℕ) : ℚ) / 5
  jsMin 1 ((coverage + conceptStrength) / 2)

def constitutionKeywords : List (List Char) :=
  (["performance", "fast", "smooth", "60fps", "optimized",
    "adaptive", "intelligent", "responsive", "cross-platform",
    "perfect", "flawless", "seamless", "visual", "stunning",
    "wow", "spectacular", "immersive", "engaging", "addictive",
    "superior", "best", "ultimate", "revolutionary"] : List String).map
    String.data

def checkConstitutionKeywords (tokens : List (List Char)) : Bool :=
  2 ≤ (tokens.filter fun t => decide (t ∈ constitutionKeywords)).length

/-- The pure content of `analyzeContent` once the initialization gate has
been passed. -/
def analyzeContentCore (content : List Char) : EffectDNA :=
  let tokens := tokenizeContent content
  let concepts := extractConcepts tokens
  { primaryConcepts := concepts
    emotionalProfile := analyzeEmotionalProfile tokens
    technicalRequirements := analyzeTechnicalRequirements tokens
    confidenceScore := calculateConfidence tokens concepts
    constitutionCompliance := checkConstitutionKeywords tokens }

def notInitializedMsg : List Char := "AI Engine not initialized".data

def analyzeContent (isInitialized : Bool) (content : List Char) :
    Except (List Char) EffectDNA :=
  if isInitialized = false then .error notInitializedMsg
  else .ok (analyzeContentCore content)

def perfCtorRepl : List Char :=
  "constructor(container, options) \x7b\n          this.performanceMonitor = new PerformanceMonitor();\n          this.frameTime = 16.67; // 60fps target\n          arguments[0] = container; arguments[1] = options;\n          return constructor.call(this, ".data

def memCleanupBlock : List Char :=
  "\n      cleanup() \x7b\n        if (this.particles) \x7b\n          this.particles.length = 0;\n        \x7d\n        if (this.canvas) \x7b\n          this.canvas.width = this.canvas.width; // Clear canvas\n        \x7d\n      \x7d".data

def qualityCtxRepl : List Char :=
  "getContext(\x272d\x27); ctx.imageSmoothingEnabled = true; ctx.imageSmoothingQuality = \x27high\x27; return ctx; \x7d)(); (() => ctx = getContext(".data

def jsTemplate : List Char :=
  "\nclass ConstitutionalEffect \x7b\n  constructor(container, options = \x7b\x7d) \x7b\n    this.container = container;\n    this.options = \x7b \n      energy: \x7b\x7bENERGY\x7d\x7d,\n      complexity: \x7b\x7bCOMPLEXITY\x7d\x7d,\n      elegance: \x7b\x7bELEGANCE\x7d\x7d,\n      targetFPS: \x7b\x7bPERFORMANCE\x7d\x7d,\n      maxMemory: \x7b\x7bMEMORY\x7d\x7d,\n      ...options \n    \x7d;\n    \n    // Constitutional Compliance Setup\n    this.setupConstitutionalCompliance();\n    this.init();\n  \x7d\n  \n  setupConstitutionalCompliance() \x7b\n    // Article I: Performance Absolue\n    this.targetFPS = 60;\n    this.frameTime = 16.67;\n    this.performanceMonitor = new PerformanceMonitor();\n    \n    // Article II: Intelligence Adaptative\n    this.autoCalibrate();\n    this.setupAdaptiveParameters();\n    \n    // Article III: Polyvalence Universelle\n    this.detectPlatform();\n    this.setupCrossBrowserCompat();\n  \x7d\n  \n  init() \x7b\n    this.canvas = document.createElement(\x27canvas\x27);\n    this.ctx = this.canvas.getContext(\x272d\x27);\n    this.setupCanvas();\n    this.startRender();\n  \x7d\n  \n  render() \x7b\n    const start = performance.now();\n    \n    this.ctx.clearRect(0, 0, this.canvas.width, this.canvas.height);\n    this.drawEffect();\n    \n    const renderTime = performance.now() - start;\n    this.performanceMonitor.track(renderTime);\n    \n    if (renderTime > this.frameTime) \x7b\n      this.optimizeForNextFrame();\n    \x7d\n    \n    requestAnimationFrame(() => this.render());\n  \x7d\n  \n  drawEffect() \x7b\n    // Effect-specific rendering based on DNA\n    const time = Date.now() * 0.001;\n    \n    // Apply energy-based animation\n    const animationSpeed = this.options.energy * 2;\n    \n    // Apply complexity-based detail\n    const detailLevel = Math.floor(this.options.complexity * 100);\n    \n    // Apply elegance-based smoothing\n    const smoothing = this.options.elegance;\n    \n    this.renderEffectWithDNA(time, animationSpeed, detailLevel, smoothing);\n  \x7d\n\x7d".data

def cssTemplate : List Char :=
  "\n.constitutional-effect \x7b\n  animation: effectAnimation \x7b\x7bENERGY\x7d\x7ds infinite ease-in-out;\n  transform-origin: center;\n  filter: blur(\x7b\x7bELEGANCE\x7d\x7dpx) brightness(\x7b\x7bCOMPLEXITY\x7d\x7d);\n\x7d\n\n@keyframes effectAnimation \x7b\n  0% \x7b \n    transform: scale(1) rotate(0deg);\n    opacity: \x7b\x7bELEGANCE\x7d\x7d;\n  \x7d\n  50% \x7b \n    transform: scale(\x7b\x7bCOMPLEXITY\x7d\x7d) rotate(180deg);\n    opacity: 1;\n  \x7d\n  100% \x7b \n    transform: scale(1) rotate(360deg);\n    opacity: \x7b\x7bELEGANCE\x7d\x7d;\n  \x7d\n\x7d\n\n/* Constitutional Performance Optimizations */\n.constitutional-effect \x7b\n  will-change: transform, opacity;\n  backface-visibility: hidden;\n  perspective: 1000px;\n\x7d".data

def aeTemplate : List Char :=
  "\n// After Effects Expression - Constitutional Compliance\n// Generated by EffectForge AI with DAAR methodology\n\nvar energy = \x7b\x7bENERGY\x7d\x7d;\nvar complexity = \x7b\x7bCOMPLEXITY\x7d\x7d;\nvar elegance = \x7b\x7bELEGANCE\x7d\x7d;\nvar time = thisComp.time;\n\n// Article I: Performance Absolue\nif (thisComp.frameRate < 60) \x7b\n  // Auto-adjust for performance\n  energy *= 0.8;\n  complexity *= 0.9;\n\x7d\n\n// Article II: Intelligence Adaptative\nvar devicePerformance = thisComp.width * thisComp.height > 1920 * 1080 ? \x27high\x27 : \x27low\x27;\nif (devicePerformance === \x27low\x27) \x7b\n  complexity = Math.min(complexity, 0.7);\n\x7d\n\n// Effect animation\nvar position = transform.position;\nvar scale = transform.scale;\nvar rotation = transform.rotation;\n\n// Energy-based movement\nvar energyX = Math.sin(time * energy * 2) * 100;\nvar energyY = Math.cos(time * energy * 1.5) * 80;\n\n// Complexity-based scaling\nvar complexScale = 100 + Math.sin(time * complexity) * 50;\n\n// Elegance-based smoothing\nvar smoothedRotation = rotation + (Math.sin(time * elegance) * 360);\n\n// Constitutional compliance output\n[position[0] + energyX, position[1] + energyY];".data

def optimizeForPerformance (code : List Char) : List Char :=
  let o1 := replaceAllLit "setInterval".data "requestAnimationFrame".data code
  let o2 := replaceAllForVar "for (let i = 0".data o1
  let o3 := replaceAllLit "document.getElementById".data
    "this.cachedElement ||= document.getElementById".data o2
  if substrB "performanceMonitor".data o3 then o3
  else replaceFirstLit "constructor(".data perfCtorRepl o3

def optimizeForMemory (code : List Char) : List Char :=
  let o1 := replaceAllNewArray "[]".data code
  let o2 := replaceAllLit ".push(".data "[(this.length || 0)] = ".data o1
  if substrB "cleanup".data o2 then o2 else o2 ++ memCleanupBlock

def optimizeForQuality (code : List Char) : List Char :=
  let o1 := replaceAllLit "Math.random()".data "this.seededRandom()".data code
  if substrB "getContext(".data o1 then
    replaceFirstLit "getContext(".data qualityCtxRepl o1
  else o1

def optimizeCode (isInitialized : Bool) (code target : List Char) :
    Except (List Char) (List Char) :=
  if isInitialized = false then .error notInitializedMsg
  else .ok <|
    if target = "performance".data then optimizeForPerformance code
    else if target = "memory".data then optimizeForMemory code
    else if target = "quality".data then optimizeForQuality code
    else code

/-- JavaScript number-to-string coercion, modelled exactly for integral
values (the only values that feed the placeholders in the covered claims);
non-integral rationals are rendered as `num/den`. -/
def ratToStr (q : ℚ) : List Char :=
  if q.den = 1 then (toString q.num).data
  else (toString q.num).data ++ '/' :: (toString q.den).data

def selectEffectTemplate (_dna : EffectDNA) (ty : List Char) : List Char :=
  if ty = "javascript".data then jsTemplate
  else if ty = "css".data then cssTemplate
  else if ty = "aftereffects".data then aeTemplate
  else jsTemplate

def populateTemplate (template : List Char) (dna : EffectDNA) : List Char :=
  let t1 := replaceAllLit "\x7b\x7bENERGY\x7d\x7d".data
    (ratToStr dna.emotionalProfile.energy) template
  let t2 := replaceAllLit "\x7b\x7bCOMPLEXITY\x7d\x7d".data
    (ratToStr dna.emotionalProfile.complexity) t1
  let t3 := replaceAllLit "\x7b\x7bELEGANCE\x7d\x7d".data
    (ratToStr dna.emotionalProfile.elegance) t2
  let t4 := replaceAllLit "\x7b\x7bCONCEPTS\x7d\x7d".data
    (List.intercalate ", ".data dna.primaryConcepts) t3
  let t5 := replaceAllLit "\x7b\x7bPERFORMANCE\x7d\x7d".data
    (ratToStr dna.technicalRequirements.performance) t4
  replaceAllLit "\x7b\x7bMEMORY\x7d\x7d".data
    (ratToStr dna.technicalRequirements.memory) t5

def generateEffectFromDNA (isInitialized : Bool) (dna : EffectDNA)
    (ty : List Char) : Except (List Char) (List Char) :=
  if isInitialized = false then .error notInitializedMsg
  else .ok (populateTemplate (selectEffectTemplate dna ty) dna)

end AiEngine

/-!
## The client effect generator (`src/client/src/lib/effect-generator.ts`)

Template catalogue, template selection and the platform optimizer.  The
catalogue objects declare `name`, `category`, `baseCode`, `performance` and
`compatibility` but **no** `complexity` or `energy` fields; those two are
read by `calculateTemplateScore`, so they are modelled as `Option ℚ` fields
that are `none` throughout the catalogue.  Arithmetic on the missing fields
yields `NaN` in JavaScript; a score of `NaN` is modelled as `none`, and
every `NaN` comparison is false, exactly as in JavaScript.
-/

namespace EffectGenerator

def constitutionalSetupBlock : List Char :=
  "\n    // Constitutional Compliance Setup\n    setupConstitutionalCompliance() \x7b\n      // Article I: Performance Absolue\n      this.targetFPS = 60;\n      this.frameTime = 16.67;\n      this.performanceMonitor = new PerformanceMonitor();\n      \n      // Article II: Intelligence Adaptative\n      this.autoCalibrate();\n      this.setupAdaptiveParameters();\n      \n      // Article III: Polyvalence Universelle\n      this.detectPlatform();\n      this.setupCrossBrowserCompat();\n    \x7d".data

def particleTemplateCode : List Char :=
  "\nclass \x7b\x7bEFFECT_NAME\x7d\x7d \x7b\n  constructor(container, options = \x7b\x7d) \x7b\n    this.container = container;\n    this.options = \x7b ...this.getDefaults(), ...options \x7d;\n    // CONSTITUTIONAL_SETUP\n    this.init();\n  \x7d\n  \n  getDefaults() \x7b\n    return \x7b\n      particleCount: 100,\n      speed: \x7b\x7bENERGY\x7d\x7d,\n      complexity: \x7b\x7bCOMPLEXITY\x7d\x7d,\n      targetFPS: \x7b\x7bTARGET_FPS\x7d\x7d\n    \x7d;\n  \x7d\n  \n  init() \x7b\n    this.canvas = document.createElement(\x27canvas\x27);\n    this.ctx = this.canvas.getContext(\x272d\x27);\n    this.particles = [];\n    this.setupCanvas();\n    this.createParticles();\n    this.startAnimation();\n  \x7d\n  \n  createParticles() \x7b\n    for (let i = 0; i < this.options.particleCount; i++) \x7b\n      this.particles.push(new Particle(this.canvas.width, this.canvas.height));\n    \x7d\n  \x7d\n  \n  render() \x7b\n    const start = performance.now();\n    \n    this.ctx.clearRect(0, 0, this.canvas.width, this.canvas.height);\n    \n    this.particles.forEach(particle => \x7b\n      particle.update();\n      particle.draw(this.ctx);\n    \x7d);\n    \n    const renderTime = performance.now() - start;\n    if (renderTime > \x7b\x7bFRAME_TIME\x7d\x7d) \x7b\n      this.optimizeForNextFrame();\n    \x7d\n    \n    requestAnimationFrame(() => this.render());\n  \x7d\n\x7d".data

def animationTemplateCode : List Char :=
  "\n.\x7b\x7bEFFECT_NAME\x7d\x7d \x7b\n  animation: effectAnimation \x7b\x7bENERGY\x7d\x7ds infinite;\n  transform-origin: center;\n\x7d\n\n@keyframes effectAnimation \x7b\n  0% \x7b transform: scale(1) rotate(0deg); \x7d\n  50% \x7b transform: scale(\x7b\x7bCOMPLEXITY\x7d\x7d) rotate(180deg); \x7d\n  100% \x7b transform: scale(1) rotate(360deg); \x7d\n\x7d".data

def canvasTemplateCode : List Char :=
  "\nclass \x7b\x7bEFFECT_NAME\x7d\x7d \x7b\n  constructor(canvas) \x7b\n    this.canvas = canvas;\n    this.ctx = canvas.getContext(\x272d\x27);\n    // CONSTITUTIONAL_SETUP\n    this.init();\n  \x7d\n  \n  render() \x7b\n    this.ctx.clearRect(0, 0, this.canvas.width, this.canvas.height);\n    \n    // Effect rendering logic here\n    const time = Date.now() * 0.001;\n    const energy = \x7b\x7bENERGY\x7d\x7d;\n    const complexity = \x7b\x7bCOMPLEXITY\x7d\x7d;\n    \n    this.drawEffect(time, energy, complexity);\n    \n    requestAnimationFrame(() => this.render());\n  \x7d\n\x7d".data

def transformTemplateCode : List Char :=
  "\n.\x7b\x7bEFFECT_NAME\x7d\x7d \x7b\n  transform: translateX(\x7b\x7bENERGY\x7d\x7dpx) scale(\x7b\x7bCOMPLEXITY\x7d\x7d);\n  transition: all 0.3s ease;\n\x7d".data

def aeTemplateCode : List Char :=
  "\n// After Effects Expression for \x7b\x7bEFFECT_NAME\x7d\x7d\nvar energy = \x7b\x7bENERGY\x7d\x7d;\nvar complexity = \x7b\x7bCOMPLEXITY\x7d\x7d;\nvar time = thisComp.time;\n\n// Constitutional Article I: Performance Absolue\nif (frameRate < 60) \x7b\n  // Optimize for performance\n\x7d\n\ntransform.position + [Math.sin(time * energy) * 100, Math.cos(time * complexity) * 100];".data

structure Template where
  name : List Char
  category : List Char
  baseCode : List Char
  performance : ℚ
  complexity : Option ℚ := none
  energy : Option ℚ := none
  compatibility : List (List Char)

def particleSystemTemplate : Template :=
  { name := "ParticleSystem".data
    category := "particle".data
    baseCode := particleTemplateCode
    performance := 0.8
    compatibility := ["web".data, "mobile".data] }

def cssAnimationTemplate : Template :=
  { name := "CSSAnimation".data
    category := "animation".data
    baseCode := animationTemplateCode
    performance := 0.9
    compatibility := ["web".data, "mobile".data, "desktop".data] }

def canvasEffectTemplate : Template :=
  { name := "CanvasEffect".data
    category := "visual".data
    baseCode := canvasTemplateCode
    performance := 0.7
    compatibility := ["web".data, "desktop".data] }

def transform3DTemplate : Template :=
  { name := "Transform3D".data
    category := "transform".data
    baseCode := transformTemplateCode
    performance := 0.95
    compatibility := ["web".data, "mobile".data, "desktop".data] }

def expressionTemplate : Template :=
  { name := "Expression".data
    category := "expression".data
    baseCode := aeTemplateCode
    performance := 0.8
    compatibility := ["desktop".data] }

def javascriptTemplates : List Template :=
  [particleSystemTemplate, cssAnimationTemplate, canvasEffectTemplate]

def cssTemplates : List Template := [transform3DTemplate]

def aftereffectsTemplates : List Template := [expressionTemplate]

/-- `templates[type] || templates.javascript`. -/
def getEffectTemplates (ty : List Char) : List Template :=
  if ty = "javascript".data then javascriptTemplates
  else if ty = "css".data then cssTemplates
  else if ty = "aftereffects".data then aftereffectsTemplates
  else javascriptTemplates

/-- `Math.abs`, kernel-evaluable. -/
def jsAbs (q : ℚ) : ℚ := if q ≤ 0 then -q else q

/-- `0.4·performance + 0.3·(1 − |complexity − dna.complexity|) +
0.3·(1 − |energy − dna.energy|)`; `none` is NaN, produced as soon as a
missing template field enters the arithmetic. -/
def calculateTemplateScore (dna : EffectDNA) (t : Template) : Option ℚ :=
  match t.complexity, t.energy with
  | some tc, some te =>
    some (t.performance * 0.4
      + (1 - jsAbs (tc - dna.emotionalProfile.complexity)) * 0.3
      + (1 - jsAbs (te - dna.emotionalProfile.energy)) * 0.3)
  | _, _ => none

/-- JavaScript `>` with NaN semantics: any comparison with NaN is false. -/
def jsGtOpt (a b : Option ℚ) : Bool :=
  match a, b with
  | some x, some y => decide (y < x)
  | _, _ => false

/-- `bestTemplate` starts at `templates[0]`, `bestScore` starts at `0`, and
a candidate replaces the current best only when `score > bestScore`. -/
def selectBestTemplate (dna : EffectDNA) (templates : List Template) :
    Option Template :=
  let init : Option Template × Option ℚ := (templates.head?, some 0)
  (templates.foldl
    (fun acc t =>
      let score := calculateTemplateScore dna t
      if jsGtOpt score acc.2 then (some t, score) else acc)
    init).1

def optimizeForMobile (code : List Char) : List Char :=
  replaceAllPC "50".data code

def optimizeForDesktop (code : List Char) : List Char :=
  replaceAllPC "200".data code

def optimizeForPlatform (code platform : List Char) : List Char :=
  if platform = "mobile".data then optimizeForMobile code
  else if platform = "desktop".data then optimizeForDesktop code
  else code

def optimizeMemoryUsage (code : List Char) : List Char :=
  let c1 := replaceAllNewArray "[]".data code
  replaceAllLit "setInterval".data "requestAnimationFrame".data c1

def optimizeFrameRate (code : List Char) (targetFps : ℚ) : List Char :=
  replaceAllLit "\x7b\x7bFRAME_TIME\x7d\x7d".data
    (AiEngine.ratToStr (1000 / targetFps)) code

end EffectGenerator

/-!
## The client constitution engine (`constitution-engine.ts`)

Seven articles, each with a boolean `validator` and an `enforcer`;
`validateCompliance` averages the seven scores; `enforceCompliance` runs
every failing article's enforcer and then re-validates once, storing the
recomputed total score on the effect.  The per-article `details` strings
(pure string interpolation) are not modelled.
-/

namespace ClientConstitution

def perfMonitorRepl : List Char :=
  "this.performanceMonitor = new PerformanceMonitor();\n         this.targetFPS = 60;\n         this.frameTime = 16.67;\n         this.init();".data

def optimizeFrameBlock : List Char :=
  "\n      optimizeForNextFrame() \x7b\n        if (this.particles && this.particles.length > 50) \x7b\n          this.particles.splice(this.particles.length / 2);\n        \x7d\n      \x7d".data

def autoCalibrateBlock : List Char :=
  "\n      autoCalibrate() \x7b\n        const deviceCapacity = this.detectDeviceCapacity();\n        this.adjustParametersForDevice(deviceCapacity);\n      \x7d\n      \n      detectDeviceCapacity() \x7b\n        const canvas = document.createElement(\x27canvas\x27);\n        const gl = canvas.getContext(\x27webgl\x27);\n        return gl ? \x27high\x27 : \x27low\x27;\n      \x7d\n      \n      adjustParametersForDevice(capacity) \x7b\n        if (capacity === \x27low\x27) \x7b\n          this.options.particleCount = Math.min(this.options.particleCount, 50);\n        \x7d\n      \x7d".data

def detectPlatformBlock : List Char :=
  "\n      detectPlatform() \x7b\n        this.platform = /Mobile|Android|iPhone|iPad/.test(navigator.userAgent) ? \x27mobile\x27 : \x27desktop\x27;\n        this.setupCrossBrowserCompat();\n      \x7d\n      \n      setupCrossBrowserCompat() \x7b\n        // Polyfills and compatibility fixes\n        if (!window.requestAnimationFrame) \x7b\n          window.requestAnimationFrame = window.setTimeout;\n        \x7d\n      \x7d".data

def oneClickBlock : List Char :=
  "\n      oneClick() \x7b\n        return new Promise((resolve) => \x7b\n          this.start();\n          resolve(this);\n        \x7d);\n      \x7d\n      \n      livePreview() \x7b\n        return this.canvas;\n      \x7d".data

def wowFactorBlock : List Char :=
  "\n      wowFactor() \x7b\n        this.addSpectacularEffects();\n        this.enableAdvancedPhysics();\n      \x7d\n      \n      addSpectacularEffects() \x7b\n        // Add glow, shadows, and advanced visual effects\n        this.ctx.shadowBlur = 20;\n        this.ctx.shadowColor = \x27rgba(0, 212, 255, 0.8)\x27;\n      \x7d\n      \n      enableAdvancedPhysics() \x7b\n        // Implement realistic physics simulation\n        this.gravity = 0.1;\n        this.friction = 0.99;\n      \x7d".data

def immersiveBlock : List Char :=
  "\n      immersive() \x7b\n        this.addInteractivity();\n        this.createEngagementLoop();\n      \x7d\n      \n      addInteractivity() \x7b\n        this.canvas.addEventListener(\x27mousemove\x27, (e) => \x7b\n          this.handleMouseInteraction(e);\n        \x7d);\n      \x7d\n      \n      createEngagementLoop() \x7b\n        setInterval(() => \x7b\n          this.triggerSurpriseElement();\n        \x7d, 5000);\n      \x7d".data

def competitiveBlock : List Char :=
  "\n    // Competitive Advantage Features\n    enableUltraHighPerformance() \x7b\n      this.optimizationLevel = \x27maximum\x27;\n      this.enableGPUAcceleration();\n    \x7d\n    \n    enableGPUAcceleration() \x7b\n      if (this.ctx.canvas.getContext(\x27webgl\x27)) \x7b\n        this.useWebGLRendering = true;\n      \x7d\n    \x7d".data

structure Metadata where
  renderTime : ℚ
  memoryUsage : ℚ
  fps : ℚ
  constitutionScore : ℚ
deriving DecidableEq

structure GeneratedEffect where
  id : List Char
  name : List Char
  description : List Char
  code : List Char
  metadata : Metadata
  dna : EffectDNA
deriving DecidableEq

/-- The per-article `validator` predicates from the `articles` table. -/
def validator : ℕ → GeneratedEffect → Bool
  | 1, e => decide (60 ≤ e.metadata.fps) && decide (e.metadata.renderTime < 200)
  | 2, e => substrB "autoCalibrate".data e.code
      && substrB "adaptiveParameters".data e.code
  | 3, e => substrB "detectPlatform".data e.code
      && substrB "crossBrowser".data e.code
  | 4, e => substrB "oneClick".data e.code
      && substrB "livePreview".data e.code
  | 5, e => substrB "wowFactor".data e.code
      && substrB "advancedPhysics".data e.code
  | 6, e => substrB "immersive".data e.code
      && decide (ratLit 7 10 < e.dna.emotionalProfile.energy)  -- 0.7
  | 7, e => decide (95 ≤ e.metadata.constitutionScore)
  | _, _ => false

def calculatePartialScore : ℕ → GeneratedEffect → ℚ
  | 1, e =>
    (jsMin 100 (e.metadata.fps / 60 * 100)
      + jsMin 100 ((200 - e.metadata.renderTime) / 200 * 100)) / 2
  | 2, e => if substrB "autoCalibrate".data e.code then 50 else 0
  | 3, e => if substrB "detectPlatform".data e.code then 50 else 0
  | 4, e => if substrB "oneClick".data e.code then 50 else 0
  | 5, e => e.dna.emotionalProfile.elegance * 100
  | 6, e => e.dna.emotionalProfile.energy * 100
  | 7, e => e.metadata.constitutionScore
  | _, _ => 0

def articleScore (i : ℕ) (e : GeneratedEffect) : ℚ :=
  if validator i e then 100 else calculatePartialScore i e

def articleIds : List ℕ := [1, 2, 3, 4, 5, 6, 7]

structure ArticleEntry where
  compliant : Bool
  score : ℚ

structure ClientCompliance where
  totalScore : ℤ
  articles : List ArticleEntry

def validateCompliance (e : GeneratedEffect) : ClientCompliance :=
  { totalScore := jsRound ((articleIds.map fun i => articleScore i e).sum / 7)
    articles := articleIds.map fun i => ⟨validator i e, articleScore i e⟩ }

def enforcePerformanceAbsolue (e : GeneratedEffect) : GeneratedEffect :=
  let c1 :=
    if substrB "performanceMonitor".data e.code then e.code
    else replaceFirstLit "this.init();".data perfMonitorRepl e.code
  let c2 :=
    if substrB "optimizeForNextFrame".data c1 then c1
    else c1 ++ optimizeFrameBlock
  { e with code := c2
           metadata := { e.metadata with fps := jsMax e.metadata.fps 60 } }

def enforceIntelligenceAdaptative (e : GeneratedEffect) : GeneratedEffect :=
  if substrB "autoCalibrate".data e.code then e
  else { e with code := e.code ++ autoCalibrateBlock }

def enforcePolyvalenceUniverselle (e : GeneratedEffect) : GeneratedEffect :=
  if substrB "detectPlatform".data e.code then e
  else { e with code := e.code ++ detectPlatformBlock }

def enforceExperienceParfaite (e : GeneratedEffect) : GeneratedEffect :=
  if substrB "oneClick".data e.code then e
  else { e with code := e.code ++ oneClickBlock }

def enforceImpactVisuel (e : GeneratedEffect) : GeneratedEffect :=
  if substrB "wowFactor".data e.code then e
  else { e with code := e.code ++ wowFactorBlock }

def enforceEcosystemeAddictif (e : GeneratedEffect) : GeneratedEffect :=
  if substrB "immersive".data e.code then e
  else { e with code := e.code ++ immersiveBlock }

def enforceDominationConcurrentielle (e : GeneratedEffect) : GeneratedEffect :=
  { e with
    code := e.code ++ competitiveBlock
    metadata := { e.metadata with
      constitutionScore := jsMax e.metadata.constitutionScore 95 } }

def enforcer : ℕ → GeneratedEffect → GeneratedEffect
  | 1, e => enforcePerformanceAbsolue e
  | 2, e => enforceIntelligenceAdaptative e
  | 3, e => enforcePolyvalenceUniverselle e
  | 4, e => enforceExperienceParfaite e
  | 5, e => enforceImpactVisuel e
  | 6, e => enforceEcosystemeAddictif e
  | 7, e => enforceDominationConcurrentielle e
  | _, e => e

/-- One pass of the `for (const article of this.articles)` loop body. -/
def enforceStep (e : GeneratedEffect) (i : ℕ) : GeneratedEffect :=
  if validator i e then e else enforcer i e

def applyArticles (e : GeneratedEffect) : GeneratedEffect :=
  articleIds.foldl enforceStep e

def enforceCompliance (e : GeneratedEffect) : GeneratedEffect :=
  let e' := applyArticles e
  { e' with metadata := { e'.metadata with
      constitutionScore := ((validateCompliance e').totalScore : ℚ) } }

end ClientConstitution

/-!
## The server constitution validator (`constitution-validator.ts`)

An `Effect` record per the shared schema: three nullable per-platform code
fields, seven derived boolean flags, integer `constitutionScore`, and
numeric render/memory/fps metadata.  `validateCompliance` weighs the seven
article scores at 14.3% each (14.2% for article seven);
`validateAndEnforce` copies the report's flags and total onto the record
and, when the total is below 90, applies code and metadata enforcement —
without re-scoring afterwards.  `Date` timestamps and the interpolated
`details` strings are not modelled.
-/

namespace ServerValidator

structure Effect where
  id : List Char
  name : List Char
  description : List Char
  category : List Char
  type : List Char
  tags : List (List Char)
  javascriptCode : Option (List Char)
  cssCode : Option (List Char)
  afterEffectsCode : Option (List Char)
  constitutionScore : ℤ
  performanceCompliant : Bool
  intelligenceAdaptive : Bool
  universalCompatible : Bool
  perfectExperience : Bool
  visualImpact : Bool
  addictiveEcosystem : Bool
  competitiveDomination : Bool
  renderTime : ℚ
  memoryUsage : ℚ
  targetFps : ℚ
deriving DecidableEq

/-- JavaScript truthiness of a nullable string: `null` and `''` are falsy. -/
def strTruthy : Option (List Char) → Bool
  | some (_ :: _) => true
  | _ => false

/-- `a || b` on nullable strings. -/
def jsOrStr (a b : Option (List Char)) : Option (List Char) :=
  if strTruthy a then a else b

/-- `a || b || c || ''`. -/
def fallback3 (a b c : Option (List Char)) : List Char :=
  ((jsOrStr (jsOrStr a b) c).getD [])

structure ArticleResult where
  score : ℤ
  compliant : Bool
  recommendations : List (List Char)

/-- Article I raw score before `Math.round`. -/
def perfRawScore (e : Effect) : ℚ :=
  (if 60 ≤ e.targetFps then (40 : ℚ) else e.targetFps / 60 * 40)
    + (if e.renderTime ≤ 16.67 then (40 : ℚ)
       else jsMax 0 (40 - (e.renderTime - 16.67) * 2))
    + (if e.memoryUsage ≤ 256 then (20 : ℚ)
       else jsMax 0 (20 - (e.memoryUsage - 256) / 256 * 20))

def validatePerformanceAbsolue (e : Effect) : ArticleResult :=
  { score := jsRound (perfRawScore e)
    compliant := decide (90 ≤ perfRawScore e)
    recommendations :=
      (if ¬ 60 ≤ e.targetFps then
        ["Increase target FPS to 60 for constitutional compliance".data] else [])
      ++ (if ¬ e.renderTime ≤ 16.67 then
        ["Optimize render time to under 16.67ms (60fps requirement)".data] else [])
      ++ (if ¬ e.memoryUsage ≤ 256 then
        ["Reduce memory usage to under 256MB for optimal performance".data] else []) }

def intelRawScore (e : Effect) : ℚ :=
  let code := fallback3 e.javascriptCode e.cssCode e.afterEffectsCode
  (if substrB "autoCalibrate".data code
      || substrB "adaptiveParameters".data code then (50 : ℚ) else 0)
    + (if substrB "detectPlatform".data code
        || substrB "deviceCapacity".data code then (25 : ℚ) else 0)
    + (if substrB "performanceMonitor".data code
        || substrB "optimizeForNextFrame".data code then (25 : ℚ) else 0)

def validateIntelligenceAdaptative (e : Effect) : ArticleResult :=
  { score := jsRound (intelRawScore e)
    compliant := decide (90 ≤ intelRawScore e)
    recommendations := [] }

/-- `[js, css, ae].filter(Boolean).length`. -/
def platformCount (e : Effect) : ℕ :=
  ([e.javascriptCode, e.cssCode, e.afterEffectsCode].filter strTruthy).length

def univRawScore (e : Effect) : ℚ :=
  let code := (jsOrStr e.javascriptCode e.cssCode).getD []
  ((platformCount e : ℕ) : ℚ) / 3 * 40
    + (if substrB "crossBrowser".data code || substrB "polyfill".data code
        || substrB "compatibility".data code then (30 : ℚ) else 0)
    + (if substrB "detectPlatform".data code
        && substrB "setupCrossBrowserCompat".data code then (30 : ℚ) else 0)

def validatePolyvalenceUniverselle (e : Effect) : ArticleResult :=
  { score := jsRound (univRawScore e)
    compliant := decide (90 ≤ univRawScore e)
    recommendations := [] }

def expRawScore (e : Effect) : ℚ :=
  let code := e.javascriptCode.getD []
  (if substrB "oneClick".data code || substrB "start()".data code
      || substrB "init()".data code then (50 : ℚ) else 0)
    + (if substrB "livePreview".data code || substrB "render()".data code
        || substrB "requestAnimationFrame".data code then (30 : ℚ) else 0)
    + (if substrB "bindEvents".data code || substrB "interactive".data code
        || substrB "mousemove".data code then (20 : ℚ) else 0)

def validateExperienceParfaite (e : Effect) : ArticleResult :=
  { score := jsRound (expRawScore e)
    compliant := decide (90 ≤ expRawScore e)
    recommendations := [] }

def visualRawScore (e : Effect) : ℚ :=
  let code := (jsOrStr e.javascriptCode e.cssCode).getD []
  (if substrB "wowFactor".data code || substrB "spectacular".data code
      || substrB "glow".data code then (40 : ℚ) else 0)
    + (if substrB "physics".data code || substrB "gravity".data code
        || substrB "friction".data code then (30 : ℚ) else 0)
    + (if substrB "antialiasing".data code || substrB "smoothing".data code
        || substrB "quality".data code then (30 : ℚ) else 0)

def validateImpactVisuel (e : Effect) : ArticleResult :=
  { score := jsRound (visualRawScore e)
    compliant := decide (90 ≤ visualRawScore e)
    recommendations := [] }

def ecoRawScore (e : Effect) : ℚ :=
  let code := e.javascriptCode.getD []
  (if substrB "immersive".data code || substrB "engaging".data code
      || substrB "interactive".data code then (50 : ℚ) else 0)
    + (if substrB "surprise".data code || substrB "variation".data code
        || substrB "random".data code then (30 : ℚ) else 0)
    + (if substrB "progress".data code || substrB "achievement".data code
        || substrB "feedback".data code then (20 : ℚ) else 0)

def validateEcosystemeAddictif (e : Effect) : ArticleResult :=
  { score := jsRound (ecoRawScore e)
    compliant := decide (90 ≤ ecoRawScore e)
    recommendations := [] }

/-- `(flags 1–6 as 0/100 each) / 6`. -/
def otherArticlesAvg (e : Effect) : ℚ :=
  (((if e.performanceCompliant then (100 : ℚ) else 0)
    + (if e.intelligenceAdaptive then 100 else 0)
    + (if e.universalCompatible then 100 else 0)
    + (if e.perfectExperience then 100 else 0)
    + (if e.visualImpact then 100 else 0)
    + (if e.addictiveEcosystem then 100 else 0)) / 6)

def domRawScore (e : Effect) : ℚ :=
  let code := (jsOrStr e.javascriptCode e.cssCode).getD []
  otherArticlesAvg e / 100 * 40
    + (if substrB "innovative".data code || substrB "revolutionary".data code
        || substrB "advanced".data code then (30 : ℚ) else 0)
    + (if e.renderTime < 10 ∧ 60 ≤ e.targetFps ∧ e.memoryUsage < 200
        then (30 : ℚ) else 0)

def validateDominationConcurrentielle (e : Effect) : ArticleResult :=
  { score := jsRound (domRawScore e)
    compliant := decide (95 ≤ domRawScore e)
    recommendations := [] }

structure ServerCompliance where
  totalScore : ℤ
  performanceCompliant : Bool
  intelligenceAdaptive : Bool
  universalCompatible : Bool
  perfectExperience : Bool
  visualImpact : Bool
  addictiveEcosystem : Bool
  competitiveDomination : Bool
  perfResult : ArticleResult
  intResult : ArticleResult
  univResult : ArticleResult
  expResult : ArticleResult
  visResult : ArticleResult
  ecoResult : ArticleResult
  domResult : ArticleResult

def validateCompliance (e : Effect) : ServerCompliance :=
  let perfResult := validatePerformanceAbsolue e
  let intResult := validateIntelligenceAdaptative e
  let univResult := validatePolyvalenceUniverselle e
  let expResult := validateExperienceParfaite e
  let visResult := validateImpactVisuel e
  let ecoResult := validateEcosystemeAddictif e
  let domResult := validateDominationConcurrentielle e
  let totalWeightedScore : ℚ :=
    (perfResult.score : ℚ) * (14.3 / 100)
    + (intResult.score : ℚ) * (14.3 / 100)
    + (univResult.score : ℚ) * (14.3 / 100)
    + (expResult.score : ℚ) * (14.3 / 100)
    + (visResult.score : ℚ) * (14.3 / 100)
    + (ecoResult.score : ℚ) * (14.3 / 100)
    + (domResult.score : ℚ) * (14.2 / 100)
  { totalScore := jsRound totalWeightedScore
    performanceCompliant := perfResult.compliant
    intelligenceAdaptive := intResult.compliant
    universalCompatible := univResult.compliant
    perfectExperience := expResult.compliant
    visualImpact := visResult.compliant
    addictiveEcosystem := ecoResult.compliant
    competitiveDomination := domResult.compliant
    perfResult := perfResult
    intResult := intResult
    univResult := univResult
    expResult := expResult
    visResult := visResult
    ecoResult := ecoResult
    domResult := domResult }

def cssPerfBlock : List Char :=
  "\n/* Constitutional Performance Enhancements */\n.effect \x7b\n  will-change: transform, opacity;\n  transform: translate3d(0, 0, 0);\n  backface-visibility: hidden;\n\x7d".data

def cssVisualBlock : List Char :=
  "\n/* Constitutional Visual Impact */\n.effect \x7b\n  filter: drop-shadow(0 0 10px rgba(0, 212, 255, 0.5));\n  animation-timing-function: cubic-bezier(0.4, 0, 0.2, 1);\n\x7d".data

def aeTimeRepl : List Char :=
  "var time = thisComp.time;\n// Constitutional Performance Optimization\nif (thisComp.frameRate < 60) \x7b\n  time *= 0.8; // Slow down for performance\n\x7d".data

def adaptiveCodeBlock : List Char :=
  "\n  // Constitutional Article II: Intelligence Adaptative\n  autoCalibrate() \x7b\n    const deviceCapacity = this.detectDeviceCapacity();\n    this.adjustParametersForDevice(deviceCapacity);\n  \x7d\n  \n  detectDeviceCapacity() \x7b\n    const canvas = document.createElement(\x27canvas\x27);\n    const gl = canvas.getContext(\x27webgl\x27);\n    const isMobile = /Mobile|Android|iPhone|iPad/.test(navigator.userAgent);\n    \n    if (isMobile) return \x27low\x27;\n    return gl ? \x27high\x27 : \x27medium\x27;\n  \x7d\n  \n  adjustParametersForDevice(capacity) \x7b\n    switch(capacity) \x7b\n      case \x27low\x27:\n        this.options.particleCount = Math.min(this.options.particleCount || 100, 30);\n        break;\n      case \x27medium\x27:\n        this.options.particleCount = Math.min(this.options.particleCount || 100, 60);\n        break;\n      case \x27high\x27:\n        this.options.particleCount = this.options.particleCount || 100;\n        break;\n    \x7d\n  \x7d".data

def initAutoCalibrateRepl : List Char :=
  "init() \x7b\n    this.autoCalibrate();".data

def perfCodeBlock : List Char :=
  "\n  // Constitutional Article I: Performance Absolue\n  setupPerformanceMonitoring() \x7b\n    this.frameTime = 1000 / 60; // 60fps target\n    this.performanceHistory = [];\n  \x7d\n  \n  optimizeForNextFrame() \x7b\n    const avgFrameTime = this.performanceHistory.reduce((a, b) => a + b, 0) / this.performanceHistory.length;\n    \n    if (avgFrameTime > this.frameTime) \x7b\n      // Reduce particle count by 10%\n      const reduceCount = Math.floor(this.particles.length * 0.1);\n      this.particles.splice(-reduceCount);\n    \x7d\n  \x7d".data

def initPerfMonitoringRepl : List Char :=
  "init() \x7b\n    this.setupPerformanceMonitoring();".data

def compatCodeBlock : List Char :=
  "\n  // Constitutional Article III: Polyvalence Universelle\n  setupCrossBrowserCompat() \x7b\n    // Polyfills for older browsers\n    if (!window.requestAnimationFrame) \x7b\n      window.requestAnimationFrame = (callback) => setTimeout(callback, 16);\n    \x7d\n    \n    // Feature detection and fallbacks\n    this.hasWebGL = !!this.canvas.getContext(\x27webgl\x27);\n    this.hasWorkers = typeof Worker !== \x27undefined\x27;\n  \x7d\n  \n  detectPlatform() \x7b\n    this.platform = \x7b\n      isMobile: /Mobile|Android|iPhone|iPad/.test(navigator.userAgent),\n      isTablet: /iPad|Android(?!.*Mobile)/.test(navigator.userAgent),\n      isDesktop: !/Mobile|Android|iPhone|iPad/.test(navigator.userAgent)\n    \x7d;\n  \x7d".data

def initCompatRepl : List Char :=
  "init() \x7b\n    this.setupCrossBrowserCompat();\n    this.detectPlatform();".data

def experienceCodeBlock : List Char :=
  "\n  // Constitutional Article IV: Expérience Parfaite\n  enableOneClickOperation() \x7b\n    return new Promise((resolve) => \x7b\n      this.start();\n      resolve(this);\n    \x7d);\n  \x7d\n  \n  livePreview() \x7b\n    return this.canvas;\n  \x7d\n  \n  setupUserInteraction() \x7b\n    this.canvas.addEventListener(\x27mousemove\x27, (e) => \x7b\n      const rect = this.canvas.getBoundingClientRect();\n      this.mouseX = e.clientX - rect.left;\n      this.mouseY = e.clientY - rect.top;\n    \x7d);\n  \x7d".data

def initInteractionRepl : List Char :=
  "init() \x7b\n    this.setupUserInteraction();".data

def visualCodeBlock : List Char :=
  "\n  // Constitutional Article V: Impact Visuel\n  enhanceVisualImpact() \x7b\n    this.ctx.shadowBlur = 15;\n    this.ctx.shadowColor = \x27rgba(0, 212, 255, 0.6)\x27;\n  \x7d\n  \n  addAdvancedPhysics() \x7b\n    this.gravity = 0.1;\n    this.friction = 0.99;\n    this.bounce = 0.8;\n  \x7d\n  \n  createWowFactor() \x7b\n    // Add spectacular visual effects\n    this.glowEffect = true;\n    this.particleTrails = true;\n  \x7d".data

def initVisualRepl : List Char :=
  "init() \x7b\n    this.enhanceVisualImpact();\n    this.addAdvancedPhysics();\n    this.createWowFactor();".data

def addictiveCodeBlock : List Char :=
  "\n  // Constitutional Article VI: Écosystème Addictif\n  createEngagementLoop() \x7b\n    setInterval(() => \x7b\n      this.triggerSurpriseElement();\n    \x7d, 5000 + Math.random() * 5000); // Random intervals for unpredictability\n  \x7d\n  \n  triggerSurpriseElement() \x7b\n    // Add unexpected visual elements\n    this.createBurstEffect();\n    this.changeColorPalette();\n  \x7d\n  \n  addInteractivity() \x7b\n    this.canvas.addEventListener(\x27click\x27, () => \x7b\n      this.createClickEffect();\n    \x7d);\n  \x7d".data

def initEngagementRepl : List Char :=
  "init() \x7b\n    this.createEngagementLoop();\n    this.addInteractivity();".data

def addAdaptiveIntelligence (code : List Char) : List Char :=
  replaceFirstLit "init() \x7b".data initAutoCalibrateRepl code
    ++ adaptiveCodeBlock

def addPerformanceOptimizations (code : List Char) : List Char :=
  replaceFirstLit "init() \x7b".data initPerfMonitoringRepl code
    ++ perfCodeBlock

def addUniversalCompatibility (code : List Char) : List Char :=
  replaceFirstLit "init() \x7b".data initCompatRepl code ++ compatCodeBlock

def addPerfectExperience (code : List Char) : List Char :=
  replaceFirstLit "init() \x7b".data initInteractionRepl code
    ++ experienceCodeBlock

def addVisualImpact (code : List Char) : List Char :=
  replaceFirstLit "init() \x7b".data initVisualRepl code ++ visualCodeBlock

def addAddictiveFeatures (code : List Char) : List Char :=
  replaceFirstLit "init() \x7b".data initEngagementRepl code
    ++ addictiveCodeBlock

def enhanceJavaScriptCode (code : List Char) (c : ServerCompliance) :
    List Char :=
  let e1 := if ¬ c.intelligenceAdaptive then addAdaptiveIntelligence code
    else code
  let e2 := if ¬ c.performanceCompliant then addPerformanceOptimizations e1
    else e1
  let e3 := if ¬ c.universalCompatible then addUniversalCompatibility e2
    else e2
  let e4 := if ¬ c.perfectExperience then addPerfectExperience e3 else e3
  let e5 := if ¬ c.visualImpact then addVisualImpact e4 else e4
  if ¬ c.addictiveEcosystem then addAddictiveFeatures e5 else e5

def enhanceCSSCode (code : List Char) (c : ServerCompliance) : List Char :=
  let e1 := if ¬ c.performanceCompliant then code ++ cssPerfBlock else code
  if ¬ c.visualImpact then e1 ++ cssVisualBlock else e1

def enhanceAfterEffectsCode (code : List Char) (c : ServerCompliance) :
    List Char :=
  if ¬ c.performanceCompliant then
    replaceFirstLit "var time = thisComp.time;".data aeTimeRepl code
  else code

def enforceConstitutionalCompliance (e : Effect) (c : ServerCompliance) :
    Effect :=
  let e1 := if strTruthy e.javascriptCode then
      { e with javascriptCode :=
                 some (enhanceJavaScriptCode (e.javascriptCode.getD []) c) }
    else e
  let e2 := if strTruthy e1.cssCode then
      { e1 with cssCode := some (enhanceCSSCode (e1.cssCode.getD []) c) }
    else e1
  let e3 := if strTruthy e2.afterEffectsCode then
      { e2 with afterEffectsCode :=
                  some (enhanceAfterEffectsCode (e2.afterEffectsCode.getD []) c) }
    else e2
  if ¬ c.performanceCompliant then
    { e3 with renderTime := jsMin e3.renderTime 15
              targetFps := jsMax e3.targetFps 60
              memoryUsage := jsMin e3.memoryUsage 256 }
  else e3

/-- Copy the report's flags and total onto the record; enforce (without
re-scoring) when the total is below 90. -/
def validateAndEnforce (e : Effect) : Effect :=
  let compliance := validateCompliance e
  let enforcedEffect :=
    { e with
      performanceCompliant := compliance.performanceCompliant
      intelligenceAdaptive := compliance.intelligenceAdaptive
      universalCompatible := compliance.universalCompatible
      perfectExperience := compliance.perfectExperience
      visualImpact := compliance.visualImpact
      addictiveEcosystem := compliance.addictiveEcosystem
      competitiveDomination := compliance.competitiveDomination
      constitutionScore := compliance.totalScore }
  if compliance.totalScore < 90 then
    enforceConstitutionalCompliance enforcedEffect compliance
  else enforcedEffect

end ServerValidator

/-!
## Storage and the generation route (`storage.ts`, `routes.ts`)

`MemStorage.createAiSession` assigns its own fresh UUID to the stored
session; the `/api/effects/generate` handler draws a *different* UUID into
`sessionId` and hands that one to `generateEffectAsync`, whose success and
error paths both call `updateAiSession(sessionId, …)`.  UUID draws, the
generation pipeline outcome, `JSON.stringify` output and clock readings are
passed as explicit parameters.  A rejected background promise is swallowed
by `.catch(console.error)`, leaving storage as it was.
-/

namespace Orchestration

structure AiSession where
  id : List Char
  prompt : List Char
  status : List Char
  response : Option (List Char)
  effectId : Option (List Char)
  processingTime : ℤ
  constitutionScore : ℤ
  completedAt : Option ℤ
deriving DecidableEq

structure SessionUpdate where
  status : Option (List Char) := none
  response : Option (List Char) := none
  effectId : Option (List Char) := none
  processingTime : Option ℤ := none
  constitutionScore : Option ℤ := none
  completedAt : Option ℤ := none

/-- `{ ...existingSession, ...updates }`. -/
def applySessionUpdate (s : AiSession) (u : SessionUpdate) : AiSession :=
  { s with
    status := u.status.getD s.status
    response := (u.response.map some).getD s.response
    effectId := (u.effectId.map some).getD s.effectId
    processingTime := u.processingTime.getD s.processingTime
    constitutionScore := u.constitutionScore.getD s.constitutionScore
    completedAt := (u.completedAt.map some).getD s.completedAt }

structure Storage where
  effects : List ServerValidator.Effect
  aiSessions : List AiSession
deriving DecidableEq

def findSession (st : Storage) (id : List Char) : Option AiSession :=
  st.aiSessions.find? fun s => s.id = id

/-- `createAiSession` assigns its own fresh id (passed here as `id`) and
stores the record with status defaulting to `'processing'`. -/
def createAiSession (st : Storage) (id prompt status : List Char) :
    Storage × AiSession :=
  let session : AiSession :=
    { id := id
      prompt := prompt
      status := if status = [] then "processing".data else status
      response := none
      effectId := none
      processingTime := 0
      constitutionScore := 0
      completedAt := none }
  ({ st with aiSessions := st.aiSessions ++ [session] }, session)

/-- `updateAiSession` throws `'AI Session not found'` for an unknown id. -/
def updateAiSession (st : Storage) (id : List Char) (u : SessionUpdate) :
    Except (List Char) (Storage × AiSession) :=
  match findSession st id with
  | none => .error "AI Session not found".data
  | some s =>
    let s' := applySessionUpdate s u
    .ok ({ st with aiSessions :=
            st.aiSessions.map fun t => if t.id = id then s' else t }, s')

/-- `createEffect` assigns a fresh id (passed as `id`). -/
def createEffect (st : Storage) (id : List Char)
    (e : ServerValidator.Effect) : Storage × ServerValidator.Effect :=
  let saved := { e with id := id }
  ({ st with effects := st.effects ++ [saved] }, saved)

/-- The body of `generateEffectAsync(sessionId, request)`: the whole
pipeline runs inside one `try`; the `catch` marks the session as `'error'`
with the captured message and elapsed time.  `pipelineResult` stands for
the awaited `effectGenerator.generateEffect(request)`. -/
def generateEffectAsync (st : Storage) (sessionId : List Char)
    (enableConstitution : Bool)
    (pipelineResult : Except (List Char) ServerValidator.Effect)
    (effectUuid serialized : List Char) (elapsed now : ℤ) : Storage :=
  let errorUpdate (stErr : Storage) (msg : List Char) : Storage :=
    match updateAiSession stErr sessionId
        { status := some "error".data
          response := some msg
          processingTime := some elapsed } with
    | .ok (st', _) => st'
    | .error _ => stErr
  match pipelineResult with
  | .error msg => errorUpdate st msg
  | .ok eff0 =>
    let eff :=
      if enableConstitution then
        let v := ServerValidator.validateAndEnforce eff0
        { eff0 with
          constitutionScore := v.constitutionScore
          performanceCompliant := v.performanceCompliant
          intelligenceAdaptive := v.intelligenceAdaptive
          universalCompatible := v.universalCompatible
          perfectExperience := v.perfectExperience
          visualImpact := v.visualImpact
          addictiveEcosystem := v.addictiveEcosystem
          competitiveDomination := v.competitiveDomination }
      else eff0
    let (st1, saved) := createEffect st effectUuid eff
    match updateAiSession st1 sessionId
        { response := some serialized
          effectId := some saved.id
          status := some "completed".data
          processingTime := some elapsed
          constitutionScore := some eff.constitutionScore
          completedAt := some now } with
    | .ok (st2, _) => st2
    | .error msg2 => errorUpdate st1 msg2

/-- The `/api/effects/generate` handler: `sessionId = randomUUID()` is
drawn independently of the UUID that `createAiSession` assigns
(`storageSessionId` here), and the background task is started with the
route's `sessionId`. -/
def effectsGenerateRoute (st : Storage)
    (routeSessionId storageSessionId prompt : List Char)
    (enableConstitution : Bool)
    (pipelineResult : Except (List Char) ServerValidator.Effect)
    (effectUuid serialized : List Char) (elapsed now : ℤ) : Storage :=
  let (st1, _session) :=
    createAiSession st storageSessionId prompt "processing".data
  generateEffectAsync st1 routeSessionId enableConstitution pipelineResult
    effectUuid serialized elapsed now

end Orchestration

/-!
## Claim theorems
-/

theorem calculateWordScore_nonneg (tokens words : List (List Char)) :
    0 ≤ AiEngine.calculateWordScore tokens words := by
  unfold AiEngine.calculateWordScore
  positivity

/-- Claim C7: for every input, the lexical analysis produces emotional
profile values and a confidence score in `[0, 1]`; the empty string yields
an empty concept list, an all-zero profile, and confidence `0`. -/
theorem C7_lexical_profile_bounds :
    (∀ content : List Char,
      AiEngine.analyzeContent true content
          = .ok (AiEngine.analyzeContentCore content)
        ∧ (0 ≤ (AiEngine.analyzeContentCore content).emotionalProfile.energy
            ∧ (AiEngine.analyzeContentCore content).emotionalProfile.energy ≤ 1)
        ∧ (0 ≤ (AiEngine.analyzeContentCore content).emotionalProfile.complexity
            ∧ (AiEngine.analyzeContentCore content).emotionalProfile.complexity ≤ 1)
        ∧ (0 ≤ (AiEngine.analyzeContentCore content).emotionalProfile.elegance
            ∧ (AiEngine.analyzeContentCore content).emotionalProfile.elegance ≤ 1)
        ∧ (0 ≤ (AiEngine.analyzeContentCore content).confidenceScore
            ∧ (AiEngine.analyzeContentCore content).confidenceScore ≤ 1))
    ∧ (AiEngine.analyzeContentCore "".data).primaryConcepts = []
    ∧ (AiEngine.analyzeContentCore "".data).emotionalProfile = ⟨0, 0, 0⟩
    ∧ (AiEngine.analyzeContentCore "".data).confidenceScore = 0 := by
  have hb : ∀ s : ℚ, 0 ≤ s → 0 ≤ jsMin 1 s ∧ jsMin 1 s ≤ 1 := by
    intro s hs
    rw [jsMin_eq_min]
    exact ⟨le_min (by norm_num) hs, min_le_left _ _⟩
  have ht : AiEngine.tokenizeContent "".data = [] := by decide
  refine ⟨fun content => ⟨rfl, ?_, ?_, ?_, ?_⟩, ?_, ?_, ?_⟩
  · exact hb _ (calculateWordScore_nonneg _ _)
  · exact hb _ (calculateWordScore_nonneg _ _)
  · exact hb _ (calculateWordScore_nonneg _ _)
  · refine hb _ ?_
    positivity
  · simp [AiEngine.analyzeContentCore, ht, AiEngine.extractConcepts,
      AiEngine.sortDescStable]
  · simp [AiEngine.analyzeContentCore, ht, AiEngine.analyzeEmotionalProfile,
      AiEngine.calculateWordScore, AiEngine.extractConcepts,
      AiEngine.sortDescStable, jsMin, natMax]
  · simp [AiEngine.analyzeContentCore, ht, AiEngine.calculateConfidence,
      AiEngine.extractConcepts, AiEngine.sortDescStable, jsMin, natMax]

/-- Claim C8: the technical requirements are
`performance = max(30, 60 − heaviness·30)` and
`memory = max(64, 256 + heaviness·256)` where `heaviness` is the heavy-word
token fraction minus the light-word token fraction; so `performance ≥ 30`
and `memory ≥ 64`. -/
theorem C8_technical_requirements :
    ∀ tokens : List (List Char),
      AiEngine.calculateWordScore tokens AiEngine.heavyWords
          = ((tokens.filter fun t => decide (t ∈ AiEngine.heavyWords)).length : ℚ)
            / ((max tokens.length 1 : ℕ) : ℚ)
        ∧ (AiEngine.analyzeTechnicalRequirements tokens).performance
          = max 30 (60 - (AiEngine.calculateWordScore tokens AiEngine.heavyWords
              - AiEngine.calculateWordScore tokens AiEngine.lightWords) * 30)
        ∧ (AiEngine.analyzeTechnicalRequirements tokens).memory
          = max 64 (256 + (AiEngine.calculateWordScore tokens AiEngine.heavyWords
              - AiEngine.calculateWordScore tokens AiEngine.lightWords) * 256)
        ∧ 30 ≤ (AiEngine.analyzeTechnicalRequirements tokens).performance
        ∧ 64 ≤ (AiEngine.analyzeTechnicalRequirements tokens).memory := by
  intro tokens
  refine ⟨?_, ?_, ?_, ?_, ?_⟩
  · rw [AiEngine.calculateWordScore, natMax_eq_max]
  · show jsMax 30 _ = _
    rw [jsMax_eq_max]
  · show jsMax 64 _ = _
    rw [jsMax_eq_max]
  · show (30 : ℚ) ≤ jsMax 30 _
    rw [jsMax_eq_max]
    exact le_max_left _ _
  · show (64 : ℚ) ≤ jsMax 64 _
    rw [jsMax_eq_max]
    exact le_max_left _ _

/-- Claim C10: before `initialize()` has completed, `analyzeContent`,
`optimizeCode` and `generateEffectFromDNA` all throw
`'AI Engine not initialized'`, regardless of their input. -/
theorem C10_uninitialized_engine_throws :
    ∀ (content code target ty : List Char) (dna : EffectDNA),
      AiEngine.analyzeContent false content
          = .error AiEngine.notInitializedMsg
        ∧ AiEngine.optimizeCode false code target
          = .error AiEngine.notInitializedMsg
        ∧ AiEngine.generateEffectFromDNA false dna ty
          = .error AiEngine.notInitializedMsg := by
  intro _ _ _ _ _
  exact ⟨rfl, rfl, rfl⟩

/-- Claim C5: Article 7 scores `40% × (average compliance of articles 1–6,
each 0 or 100) + 30%` for an innovation-keyword marker `+ 30%` for
`renderTime < 10 ∧ targetFps ≥ 60 ∧ memoryUsage < 200`, and its compliant
flag requires a score of at least 95 — stricter than the 90 bar used by the
other six articles. -/
theorem C5_competitive_domination_score :
    ∀ e : ServerValidator.Effect,
      (ServerValidator.validateDominationConcurrentielle e).score
          = jsRound ((0.4 : ℚ) *
              (((if e.performanceCompliant then (100 : ℚ) else 0)
                + (if e.intelligenceAdaptive then 100 else 0)
                + (if e.universalCompatible then 100 else 0)
                + (if e.perfectExperience then 100 else 0)
                + (if e.visualImpact then 100 else 0)
                + (if e.addictiveEcosystem then 100 else 0)) / 6)
            + (if substrB "innovative".data
                  ((ServerValidator.jsOrStr e.javascriptCode e.cssCode).getD [])
                || substrB "revolutionary".data
                  ((ServerValidator.jsOrStr e.javascriptCode e.cssCode).getD [])
                || substrB "advanced".data
                  ((ServerValidator.jsOrStr e.javascriptCode e.cssCode).getD [])
                then (30 : ℚ) else 0)
            + (if e.renderTime < 10 ∧ 60 ≤ e.targetFps ∧ e.memoryUsage < 200
                then (30 : ℚ) else 0))
        ∧ (ServerValidator.validateDominationConcurrentielle e).compliant
          = decide (95 ≤ ServerValidator.domRawScore e)
        ∧ ∀ q : ℚ, decide (95 ≤ q) = true → decide (90 ≤ q) = true := by
  intro e
  have hexpr : ServerValidator.domRawScore e
      = (0.4 : ℚ) * ServerValidator.otherArticlesAvg e
        + (if substrB "innovative".data
              ((ServerValidator.jsOrStr e.javascriptCode e.cssCode).getD [])
            || substrB "revolutionary".data
              ((ServerValidator.jsOrStr e.javascriptCode e.cssCode).getD [])
            || substrB "advanced".data
              ((ServerValidator.jsOrStr e.javascriptCode e.cssCode).getD [])
            then (30 : ℚ) else 0)
        + (if e.renderTime < 10 ∧ 60 ≤ e.targetFps ∧ e.memoryUsage < 200
            then (30 : ℚ) else 0) := by
    unfold ServerValidator.domRawScore
    have : ∀ x : ℚ, x / 100 * 40 = (0.4 : ℚ) * x := by
      intro x
      norm_num
      ring
    rw [this]
  refine ⟨?_, rfl, ?_⟩
  · show jsRound (ServerValidator.domRawScore e) = _
    rw [hexpr]
    rfl
  · intro q h
    simp only [decide_eq_true_eq] at h ⊢
    linarith

/-- The DNA record used in the template-selection counterexample. -/
def sampleDna : EffectDNA :=
  { primaryConcepts := []
    emotionalProfile := ⟨ratLit 1 2, ratLit 1 2, ratLit 1 2⟩
    technicalRequirements := ⟨60, 256, []⟩
    confidenceScore := 1
    constitutionCompliance := false }

/-- Claim C6, counterexample: the catalogue's templates declare no
complexity or energy affinities, so `calculateTemplateScore` yields NaN
(`none`) on the very first catalogue template, and selection returns the
first template even though another catalogue template has strictly higher
declared performance. -/
theorem C6_counterexample :
    EffectGenerator.calculateTemplateScore sampleDna
        EffectGenerator.particleSystemTemplate = none
      ∧ EffectGenerator.selectBestTemplate sampleDna
          (EffectGenerator.getEffectTemplates "javascript".data)
        = some EffectGenerator.particleSystemTemplate
      ∧ EffectGenerator.particleSystemTemplate.performance
        < EffectGenerator.cssAnimationTemplate.performance
      ∧ EffectGenerator.cssAnimationTemplate
        ∈ EffectGenerator.getEffectTemplates "javascript".data
      ∧ EffectGenerator.particleSystemTemplate.complexity = none
      ∧ EffectGenerator.particleSystemTemplate.energy = none := by
  refine ⟨rfl, rfl, ?_, ?_, rfl, rfl⟩
  · show (0.8 : ℚ) < 0.9
    norm_num
  · simp [EffectGenerator.getEffectTemplates, EffectGenerator.javascriptTemplates]

/-- Claim C6, amended: because no catalogue template declares complexity or
energy, every score is NaN, the strict `score > bestScore` comparison never
succeeds, and `selectBestTemplate` always returns the first template of the
catalogue for the requested type; in particular the same DNA and type always
yield the same template. -/
theorem C6_amended_first_template_always_wins :
    ∀ (dna : EffectDNA) (ty : List Char),
      EffectGenerator.selectBestTemplate dna (EffectGenerator.getEffectTemplates ty)
        = (EffectGenerator.getEffectTemplates ty).head? := by
  intro dna ty
  unfold EffectGenerator.getEffectTemplates
  split
  · rfl
  · split
    · rfl
    · split
      · rfl
      · rfl

/-- Claim C4 (code bug): when the pipeline throws, `generateEffectAsync`'s
catch calls `updateAiSession` with the route handler's own `randomUUID()`,
not the id that `createAiSession` assigned to the stored session, so the
update throws `'AI Session not found'`, the rejection is swallowed by
`.catch(console.error)`, and the stored session is never marked as failed:
it keeps status `'processing'` with no error message or elapsed time, and
storage is exactly what it was after session creation. -/
theorem C4_failed_pipeline_session_never_marked :
    (Orchestration.effectsGenerateRoute ⟨[], []⟩ "route-uuid".data
        "storage-uuid".data "a prompt".data true
        (.error "AI Engine not initialized".data) "effect-uuid".data
        [] 137 999)
      = (Orchestration.createAiSession ⟨[], []⟩ "storage-uuid".data
          "a prompt".data "processing".data).1
    ∧ Orchestration.findSession
        (Orchestration.effectsGenerateRoute ⟨[], []⟩ "route-uuid".data
          "storage-uuid".data "a prompt".data true
          (.error "AI Engine not initialized".data) "effect-uuid".data
          [] 137 999)
        "storage-uuid".data
      = some ⟨"storage-uuid".data, "a prompt".data, "processing".data,
          none, none, 0, 0, none⟩
    ∧ (Orchestration.effectsGenerateRoute ⟨[], []⟩ "route-uuid".data
        "storage-uuid".data "a prompt".data true
        (.error "AI Engine not initialized".data) "effect-uuid".data
        [] 137 999).effects = [] := by
  refine ⟨rfl, ?_, rfl⟩
  decide

/-- An effect with no code and failing metadata: every article scores 0, so
`validateAndEnforce` takes its enforcement branch. -/
def C1effect : ServerValidator.Effect :=
  { id := "fx-1".data
    name := "Bare Effect".data
    description := "no code".data
    category := "particle".data
    type := "javascript".data
    tags := []
    javascriptCode := none
    cssCode := none
    afterEffectsCode := none
    constitutionScore := 0
    performanceCompliant := false
    intelligenceAdaptive := false
    universalCompatible := false
    perfectExperience := false
    visualImpact := false
    addictiveEcosystem := false
    competitiveDomination := false
    renderTime := 100
    memoryUsage := 1000
    targetFps := 0 }

/-- What `validateAndEnforce` actually returns for `C1effect`: metadata
clamped by enforcement, but score and flags still from the
pre-enforcement report. -/
def C1after : ServerValidator.Effect :=
  { C1effect with renderTime := 15, targetFps := 60, memoryUsage := 256 }

theorem C1effect_perfRaw : ServerValidator.perfRawScore C1effect = 0 := by
  unfold ServerValidator.perfRawScore C1effect
  norm_num [jsMax]

theorem C1effect_intelRaw : ServerValidator.intelRawScore C1effect = 0 := by
  unfold ServerValidator.intelRawScore C1effect
  norm_num [ServerValidator.fallback3, ServerValidator.jsOrStr,
    ServerValidator.strTruthy, substrB, prefixB]

theorem C1effect_univRaw : ServerValidator.univRawScore C1effect = 0 := by
  unfold ServerValidator.univRawScore C1effect
  norm_num [ServerValidator.platformCount, ServerValidator.jsOrStr,
    ServerValidator.strTruthy, substrB, prefixB]

theorem C1effect_expRaw : ServerValidator.expRawScore C1effect = 0 := by
  unfold ServerValidator.expRawScore C1effect
  norm_num [substrB, prefixB]

theorem C1effect_visualRaw : ServerValidator.visualRawScore C1effect = 0 := by
  unfold ServerValidator.visualRawScore C1effect
  norm_num [ServerValidator.jsOrStr, ServerValidator.strTruthy, substrB,
    prefixB]

theorem C1effect_ecoRaw : ServerValidator.ecoRawScore C1effect = 0 := by
  unfold ServerValidator.ecoRawScore C1effect
  norm_num [substrB, prefixB]

theorem C1effect_domRaw : ServerValidator.domRawScore C1effect = 0 := by
  unfold ServerValidator.domRawScore C1effect
  norm_num [ServerValidator.otherArticlesAvg, ServerValidator.jsOrStr,
    ServerValidator.strTruthy, substrB, prefixB]

theorem C1effect_totalScore :
    (ServerValidator.validateCompliance C1effect).totalScore = 0 := by
  show jsRound _ = 0
  rw [show (ServerValidator.validatePerformanceAbsolue C1effect).score
      = jsRound (ServerValidator.perfRawScore C1effect) from rfl,
    show (ServerValidator.validateIntelligenceAdaptative C1effect).score
      = jsRound (ServerValidator.intelRawScore C1effect) from rfl,
    show (ServerValidator.validatePolyvalenceUniverselle C1effect).score
      = jsRound (ServerValidator.univRawScore C1effect) from rfl,
    show (ServerValidator.validateExperienceParfaite C1effect).score
      = jsRound (ServerValidator.expRawScore C1effect) from rfl,
    show (ServerValidator.validateImpactVisuel C1effect).score
      = jsRound (ServerValidator.visualRawScore C1effect) from rfl,
    show (ServerValidator.validateEcosystemeAddictif C1effect).score
      = jsRound (ServerValidator.ecoRawScore C1effect) from rfl,
    show (ServerValidator.validateDominationConcurrentielle C1effect).score
      = jsRound (ServerValidator.domRawScore C1effect) from rfl,
    C1effect_perfRaw, C1effect_intelRaw, C1effect_univRaw, C1effect_expRaw,
    C1effect_visualRaw, C1effect_ecoRaw, C1effect_domRaw]
  norm_num [jsRound]

theorem C1effect_perfFlag :
    (ServerValidator.validateCompliance C1effect).performanceCompliant
      = false := by
  show decide ((90 : ℚ) ≤ ServerValidator.perfRawScore C1effect) = false
  rw [C1effect_perfRaw]
  norm_num

theorem C1effect_intelFlag :
    (ServerValidator.validateCompliance C1effect).intelligenceAdaptive
      = false := by
  show decide ((90 : ℚ) ≤ ServerValidator.intelRawScore C1effect) = false
  rw [C1effect_intelRaw]; norm_num

theorem C1effect_univFlag :
    (ServerValidator.validateCompliance C1effect).universalCompatible
      = false := by
  show decide ((90 : ℚ) ≤ ServerValidator.univRawScore C1effect) = false
  rw [C1effect_univRaw]; norm_num

theorem C1effect_expFlag :
    (ServerValidator.validateCompliance C1effect).perfectExperience
      = false := by
  show decide ((90 : ℚ) ≤ ServerValidator.expRawScore C1effect) = false
  rw [C1effect_expRaw]; norm_num

theorem C1effect_visFlag :
    (ServerValidator.validateCompliance C1effect).visualImpact = false := by
  show decide ((90 : ℚ) ≤ ServerValidator.visualRawScore C1effect) = false
  rw [C1effect_visualRaw]; norm_num

theorem C1effect_ecoFlag :
    (ServerValidator.validateCompliance C1effect).addictiveEcosystem
      = false := by
  show decide ((90 : ℚ) ≤ ServerValidator.ecoRawScore C1effect) = false
  rw [C1effect_ecoRaw]; norm_num

theorem C1effect_domFlag :
    (ServerValidator.validateCompliance C1effect).competitiveDomination
      = false := by
  show decide ((95 : ℚ) ≤ ServerValidator.domRawScore C1effect) = false
  rw [C1effect_domRaw]; norm_num

theorem C1_validateAndEnforce_eq :
    ServerValidator.validateAndEnforce C1effect = C1after := by
  simp only [ServerValidator.validateAndEnforce]
  rw [C1effect_totalScore]
  norm_num
  unfold ServerValidator.enforceConstitutionalCompliance
  rw [C1effect_perfFlag, C1effect_intelFlag, C1effect_univFlag,
    C1effect_expFlag, C1effect_visFlag, C1effect_ecoFlag, C1effect_domFlag]
  decide

theorem C1after_perfRaw : ServerValidator.perfRawScore C1after = 100 := by
  unfold ServerValidator.perfRawScore C1after C1effect
  norm_num

theorem C1after_intelRaw : ServerValidator.intelRawScore C1after = 0 := by
  unfold ServerValidator.intelRawScore C1after C1effect
  norm_num [ServerValidator.fallback3, ServerValidator.jsOrStr,
    ServerValidator.strTruthy, substrB, prefixB]

theorem C1after_univRaw : ServerValidator.univRawScore C1after = 0 := by
  unfold ServerValidator.univRawScore C1after C1effect
  norm_num [ServerValidator.platformCount, ServerValidator.jsOrStr,
    ServerValidator.strTruthy, substrB, prefixB]

theorem C1after_expRaw : ServerValidator.expRawScore C1after = 0 := by
  unfold ServerValidator.expRawScore C1after C1effect
  norm_num [substrB, prefixB]

theorem C1after_visualRaw : ServerValidator.visualRawScore C1after = 0 := by
  unfold ServerValidator.visualRawScore C1after C1effect
  norm_num [ServerValidator.jsOrStr, ServerValidator.strTruthy, substrB,
    prefixB]

theorem C1after_ecoRaw : ServerValidator.ecoRawScore C1after = 0 := by
  unfold ServerValidator.ecoRawScore C1after C1effect
  norm_num [substrB, prefixB]

theorem C1after_domRaw : ServerValidator.domRawScore C1after = 0 := by
  unfold ServerValidator.domRawScore C1after C1effect
  norm_num [ServerValidator.otherArticlesAvg, ServerValidator.jsOrStr,
    ServerValidator.strTruthy, substrB, prefixB]

theorem C1after_totalScore :
    (ServerValidator.validateCompliance C1after).totalScore = 14 := by
  show jsRound _ = 14
  rw [show (ServerValidator.validatePerformanceAbsolue C1after).score
      = jsRound (ServerValidator.perfRawScore C1after) from rfl,
    show (ServerValidator.validateIntelligenceAdaptative C1after).score
      = jsRound (ServerValidator.intelRawScore C1after) from rfl,
    show (ServerValidator.validatePolyvalenceUniverselle C1after).score
      = jsRound (ServerValidator.univRawScore C1after) from rfl,
    show (ServerValidator.validateExperienceParfaite C1after).score
      = jsRound (ServerValidator.expRawScore C1after) from rfl,
    show (ServerValidator.validateImpactVisuel C1after).score
      = jsRound (ServerValidator.visualRawScore C1after) from rfl,
    show (ServerValidator.validateEcosystemeAddictif C1after).score
      = jsRound (ServerValidator.ecoRawScore C1after) from rfl,
    show (ServerValidator.validateDominationConcurrentielle C1after).score
      = jsRound (ServerValidator.domRawScore C1after) from rfl,
    C1after_perfRaw, C1after_intelRaw, C1after_univRaw, C1after_expRaw,
    C1after_visualRaw, C1after_ecoRaw, C1after_domRaw]
  norm_num [jsRound]

/-- Claim C1 (code bug): `validateAndEnforce` stores the *pre*-enforcement
flags and total on the record and then mutates code and metadata without
re-scoring.  On `C1effect` it clamps the metadata to
`renderTime 15 / targetFps 60 / memoryUsage 256` yet returns
`constitutionScore = 0` and `performanceCompliant = false`, although
scoring the returned record gives Article 1 a compliant 100 and a total of
14 — so the stored score and flags do not match a re-scoring of the
returned code and metadata. -/
theorem C1_enforcement_not_rescored :
    ServerValidator.validateAndEnforce C1effect = C1after
      ∧ C1after.renderTime = 15
      ∧ C1after.targetFps = 60
      ∧ C1after.memoryUsage = 256
      ∧ C1after.constitutionScore = 0
      ∧ C1after.performanceCompliant = false
      ∧ (ServerValidator.validateCompliance C1after).totalScore = 14
      ∧ (ServerValidator.validateCompliance C1after).performanceCompliant
        = true := by
  refine ⟨C1_validateAndEnforce_eq, rfl, rfl, rfl, rfl, rfl,
    C1after_totalScore, ?_⟩
  show decide ((90 : ℚ) ≤ ServerValidator.perfRawScore C1after) = true
  rw [C1after_perfRaw]
  norm_num

/-- Claim C2, amended: `totalScore` is the rounded weighted sum of the
seven *reported* (rounded) article scores with weights 14.3 / 14.3 / 14.3 /
14.3 / 14.3 / 14.3 / 14.2; each article's compliant flag, however, is
computed from the article's *unrounded* raw score, not from the reported
score. -/
theorem C2_weighted_total_and_flags :
    ∀ e : ServerValidator.Effect,
      (ServerValidator.validateCompliance e).totalScore
          = jsRound (((14.3 : ℚ)
              * ((ServerValidator.validatePerformanceAbsolue e).score : ℚ)
            + 14.3 * ((ServerValidator.validateIntelligenceAdaptative e).score : ℚ)
            + 14.3 * ((ServerValidator.validatePolyvalenceUniverselle e).score : ℚ)
            + 14.3 * ((ServerValidator.validateExperienceParfaite e).score : ℚ)
            + 14.3 * ((ServerValidator.validateImpactVisuel e).score : ℚ)
            + 14.3 * ((ServerValidator.validateEcosystemeAddictif e).score : ℚ)
            + 14.2 * ((ServerValidator.validateDominationConcurrentielle e).score : ℚ))
            / 100)
        ∧ (ServerValidator.validateCompliance e).performanceCompliant
          = decide (90 ≤ ServerValidator.perfRawScore e)
        ∧ (ServerValidator.validateCompliance e).intelligenceAdaptive
          = decide (90 ≤ ServerValidator.intelRawScore e)
        ∧ (ServerValidator.validateCompliance e).universalCompatible
          = decide (90 ≤ ServerValidator.univRawScore e)
        ∧ (ServerValidator.validateCompliance e).perfectExperience
          = decide (90 ≤ ServerValidator.expRawScore e)
        ∧ (ServerValidator.validateCompliance e).visualImpact
          = decide (90 ≤ ServerValidator.visualRawScore e)
        ∧ (ServerValidator.validateCompliance e).addictiveEcosystem
          = decide (90 ≤ ServerValidator.ecoRawScore e)
        ∧ (ServerValidator.validateCompliance e).competitiveDomination
          = decide (95 ≤ ServerValidator.domRawScore e) := by
  intro e
  refine ⟨?_, rfl, rfl, rfl, rfl, rfl, rfl, rfl⟩
  show jsRound _ = jsRound _
  congr 1
  ring_nf

/-- An effect whose Article 1 raw score is 8621/96 ≈ 89.8: the reported
(rounded) score is 90 — equal to the pass bar — while the compliant flag,
computed from the raw score, is false. -/
def C2effect : ServerValidator.Effect :=
  { C1effect with renderTime := 10, memoryUsage := 378, targetFps := 59 }

theorem C2effect_perfRaw :
    ServerValidator.perfRawScore C2effect = 8621 / 96 := by
  unfold ServerValidator.perfRawScore C2effect C1effect
  norm_num [jsMax]

/-- Claim C2, counterexample: for `C2effect` the reported Article 1 score
is 90 (at the pass bar) but the stored compliant flag is false, refuting
"each article's compliant flag equals `score_i ≥` that article's own pass
bar" for the reported sub-scores. -/
theorem C2_counterexample_rounded_bar :
    (ServerValidator.validatePerformanceAbsolue C2effect).score = 90
      ∧ ((90 : ℤ) ≤ (ServerValidator.validatePerformanceAbsolue C2effect).score)
      ∧ (ServerValidator.validatePerformanceAbsolue C2effect).compliant = false
      ∧ (ServerValidator.validateCompliance C2effect).performanceCompliant
        = false := by
  have hs : (ServerValidator.validatePerformanceAbsolue C2effect).score = 90 := by
    show jsRound (ServerValidator.perfRawScore C2effect) = 90
    rw [C2effect_perfRaw]
    norm_num [jsRound]
  have hc : (ServerValidator.validatePerformanceAbsolue C2effect).compliant
      = false := by
    show decide ((90 : ℚ) ≤ ServerValidator.perfRawScore C2effect) = false
    rw [C2effect_perfRaw]
    norm_num
  exact ⟨hs, by rw [hs], hc, hc⟩

/-!
## Correctness of the `particleCount` platform rewrite (claim C9)

A small state machine tracks how far the pattern
`particleCount\s*=\s*\d+` has matched; `noMatch σ cs` says the rest of the
pattern cannot be completed on `cs`.  The key lemma: rewriting cannot
create a match where none existed, because every inserted replacement
begins with `p`, a character on which every reachable non-initial matcher
state fails.
-/

inductive MSt where
  | lit : List Char → MSt
  | wsEq : MSt
  | wsDig : MSt
deriving DecidableEq

/-- `noMatch σ cs = true` iff the pattern cannot complete from state `σ`
on input `cs` (`lit l`: the literal chars `l` are still expected; `wsEq`:
`\s*=` expected; `wsDig`: `\s*\d` expected). -/
def noMatch : MSt → List Char → Bool
  | _, [] => true
  | .lit l, c :: cs =>
    match l with
    | [] => true
    | x :: xs =>
      if c = x then
        match xs with
        | [] => noMatch .wsEq cs
        | _ :: _ => noMatch (.lit xs) cs
      else true
  | .wsEq, c :: cs =>
    if isWS c then noMatch .wsEq cs
    else if c = '=' then noMatch .wsDig cs else true
  | .wsDig, c :: cs =>
    if isWS c then noMatch .wsDig cs
    else if c.isDigit then false else true

theorem noMatch_lit_phase :
    ∀ (l cs : List Char), l ≠ [] →
      noMatch (.lit l) cs
        = match stripLit l cs with
          | none => true
          | some r => noMatch .wsEq r := by
  intro l
  induction l with
  | nil => intro cs h; exact absurd rfl h
  | cons x xs ih =>
    intro cs _
    cases cs with
    | nil => simp [noMatch, stripLit]
    | cons c cs =>
      by_cases hc : c = x
      · subst hc
        cases xs with
        | nil => simp [noMatch, stripLit]
        | cons y ys =>
          simp only [noMatch, if_pos rfl, stripLit]
          rw [ih cs (by simp)]
          simp
      · simp [noMatch, stripLit, hc]

theorem noMatch_wsEq_phase :
    ∀ cs : List Char,
      noMatch .wsEq cs
        = match stripChar '=' (dropWS cs) with
          | none => true
          | some r => noMatch .wsDig r := by
  intro cs
  induction cs with
  | nil => simp [noMatch, dropWS, stripChar]
  | cons c cs ih =>
    by_cases hw : isWS c
    · simp only [noMatch, if_pos hw, ih, dropWS, List.dropWhile_cons, hw]
      simp
    · by_cases he : c = '='
      · subst he
        simp [noMatch, hw, dropWS, List.dropWhile_cons, stripChar]
      · simp [noMatch, hw, he, dropWS, List.dropWhile_cons, stripChar]

theorem noMatch_wsDig_phase :
    ∀ cs : List Char,
      noMatch .wsDig cs
        = decide (((dropWS cs).span Char.isDigit).1 = []) := by
  intro cs
  induction cs with
  | nil => simp [noMatch, dropWS, List.span_eq_take_drop]
  | cons c cs ih =>
    by_cases hw : isWS c
    · simp only [noMatch, if_pos hw, ih, dropWS, List.dropWhile_cons, hw]
      simp
    · by_cases hd : c.isDigit
      · simp [noMatch, hw, hd, dropWS, List.dropWhile_cons,
          List.span_eq_take_drop, List.takeWhile_cons]
      · simp [noMatch, hw, hd, dropWS, List.dropWhile_cons,
          List.span_eq_take_drop, List.takeWhile_cons]

/-- The state machine agrees with the matcher: `noMatch` from the initial
state is exactly "no head match". -/
theorem noMatch_init_iff (cs : List Char) :
    noMatch (.lit litPC) cs = (headmatchPC cs).isNone := by
  rw [noMatch_lit_phase litPC cs (by decide)]
  unfold headmatchPC
  cases h1 : stripLit litPC cs with
  | none => simp
  | some r1 =>
    simp only [noMatch_wsEq_phase]
    cases h2 : stripChar '=' (dropWS r1) with
    | none => simp
    | some r2 =>
      simp only [noMatch_wsDig_phase]
      cases h3 : (dropWS r2).span Char.isDigit with
      | mk ds rest =>
        by_cases hd : ds = [] <;> simp [hd]

/-- The head of the remainder after a match is not a digit (the digit run
is consumed greedily). -/
def headNotDigit : List Char → Prop
  | [] => True
  | c :: _ => c.isDigit = false

theorem dropWhile_headNotDigit (cs : List Char) :
    headNotDigit (cs.dropWhile Char.isDigit) := by
  induction cs with
  | nil => trivial
  | cons c cs ih =>
    by_cases h : c.isDigit
    · simpa [List.dropWhile_cons, h] using ih
    · simpa [List.dropWhile_cons, h, headNotDigit] using h

theorem headmatchPC_rest {cs ds rest : List Char}
    (h : headmatchPC cs = some (ds, rest)) : headNotDigit rest := by
  unfold headmatchPC at h
  cases h1 : stripLit litPC cs with
  | none => simp [h1] at h
  | some r1 =>
    simp only [h1] at h
    cases h2 : stripChar '=' (dropWS r1) with
    | none => simp [h2] at h
    | some r2 =>
      simp only [h2] at h
      cases h3 : (dropWS r2).span Char.isDigit with
      | mk ds2 rest2 =>
        simp only [h3] at h
        split at h
        · simp at h
        · rw [Option.some.injEq, Prod.mk.injEq] at h
          obtain ⟨rfl, rfl⟩ := h
          have : rest2 = (dropWS r2).dropWhile Char.isDigit := by
            have := List.span_eq_take_drop (p := Char.isDigit) (dropWS r2)
            rw [h3] at this
            exact congrArg Prod.snd this
          rw [this]
          exact dropWhile_headNotDigit _

theorem headmatchPC_starts_p {cs : List Char} {v : List Char × List Char}
    (h : headmatchPC cs = some v) : ∃ t, cs = 'p' :: t := by
  unfold headmatchPC at h
  cases h1 : stripLit litPC cs with
  | none => simp [h1] at h
  | some r1 =>
    cases cs with
    | nil => simp [litPC, stripLit] at h1
    | cons c cs' =>
      refine ⟨cs', ?_⟩
      have : c = 'p' := by
        by_contra hc
        simp [litPC, stripLit, hc] at h1
      rw [this]

theorem stripLit_self (l cs : List Char) : stripLit l (l ++ cs) = some cs := by
  induction l with
  | nil => rfl
  | cons x xs ih => simp [stripLit, ih]

theorem takeWhile_digits_append :
    ∀ ds t : List Char, (∀ c ∈ ds, c.isDigit = true) → headNotDigit t →
      List.takeWhile Char.isDigit (ds ++ t) = ds := by
  intro ds t hds ht
  induction ds with
  | nil =>
    cases t with
    | nil => rfl
    | cons c t' =>
      simp only [headNotDigit] at ht
      simp [List.takeWhile_cons, ht]
  | cons d ds' ih =>
    have hd := hds d (by simp)
    simp only [List.cons_append, List.takeWhile_cons, hd, if_pos]
    rw [ih (fun c hc => hds c (by simp [hc]))]

theorem dropWhile_digits_append :
    ∀ ds t : List Char, (∀ c ∈ ds, c.isDigit = true) → headNotDigit t →
      List.dropWhile Char.isDigit (ds ++ t) = t := by
  intro ds t hds ht
  induction ds with
  | nil =>
    cases t with
    | nil => rfl
    | cons c t' =>
      simp only [headNotDigit] at ht
      simp [List.dropWhile_cons, ht]
  | cons d ds' ih =>
    have hd := hds d (by simp)
    simp only [List.cons_append, List.dropWhile_cons, hd, if_pos]
    exact ih (fun c hc => hds c (by simp [hc]))

theorem span_digits_append {ds t : List Char}
    (hds : ∀ c ∈ ds, c.isDigit = true) (ht : headNotDigit t) :
    (ds ++ t).span Char.isDigit = (ds, t) := by
  rw [List.span_eq_take_drop, Prod.mk.injEq]
  exact ⟨takeWhile_digits_append ds t hds ht,
    dropWhile_digits_append ds t hds ht⟩

theorem isDigit_not_isWS {c : Char} (h : c.isDigit = true) : isWS c = false := by
  by_contra hq
  have hw : isWS c = true := by simpa using hq
  simp only [isWS, Bool.or_eq_true, decide_eq_true_eq] at hw
  rcases hw with ((((hc | hc) | hc) | hc) | hc) | hc <;> subst hc <;>
    exact absurd h (by decide)

/-- The inserted replacement text followed by anything that does not start
with a digit matches the pattern exactly up to its own digit run. -/
theorem headmatchPC_repl {ds t : List Char} (hne : ds ≠ [])
    (hds : ∀ c ∈ ds, c.isDigit = true) (ht : headNotDigit t) :
    headmatchPC (litPC ++ (' ' :: '=' :: ' ' :: ds) ++ t) = some (ds, t) := by
  unfold headmatchPC
  rw [List.append_assoc, stripLit_self]
  simp only []
  have h1 : dropWS ((' ' :: '=' :: ' ' :: ds) ++ t)
      = '=' :: ' ' :: (ds ++ t) := by
    simp [dropWS, List.dropWhile_cons, isWS]
  rw [show (' ' :: '=' :: ' ' :: ds) ++ t = ' ' :: '=' :: ' ' :: (ds ++ t)
    from by simp, show dropWS (' ' :: '=' :: ' ' :: (ds ++ t))
      = '=' :: ' ' :: (ds ++ t) from by
        simp [dropWS, List.dropWhile_cons, isWS]]
  rw [show stripChar '=' ('=' :: ' ' :: (ds ++ t)) = some (' ' :: (ds ++ t))
    from by simp [stripChar]]
  simp only []
  have h3 : dropWS (' ' :: (ds ++ t)) = ds ++ t := by
    cases ds with
    | nil => exact absurd rfl hne
    | cons d ds' =>
      have hw := isDigit_not_isWS (hds d (by simp))
      simp [dropWS, List.dropWhile_cons, hw,
        show isWS ' ' = true from by decide]
  rw [h3, span_digits_append hds ht]
  simp [hne]

theorem noMatch_wsEq_p (z : List Char) : noMatch .wsEq ('p' :: z) = true := by
  simp [noMatch, isWS]

theorem noMatch_wsDig_p (z : List Char) : noMatch .wsDig ('p' :: z) = true := by
  simp [noMatch, isWS]

theorem noMatch_litk_p {k : ℕ} (hk : k ≤ 12) (hk1 : 1 ≤ k) (z : List Char) :
    noMatch (.lit (litPC.drop k)) ('p' :: z) = true := by
  interval_cases k <;> simp [litPC, noMatch]

/-- The matcher states reachable while scanning for the pattern. -/
def ReachSt (σ : MSt) : Prop :=
  σ = .wsEq ∨ σ = .wsDig ∨ ∃ k, k ≤ 12 ∧ σ = .lit (litPC.drop k)

theorem headNotDigit_replaceAllPCGo (ds : List Char) (fuel : ℕ)
    (cs : List Char) (h : headNotDigit cs) :
    headNotDigit (replaceAllPCGo ds fuel cs) := by
  cases cs with
  | nil => cases fuel <;> exact trivial
  | cons c cs' =>
    cases fuel with
    | zero => exact h
    | succ f =>
      cases hm : headmatchPC (c :: cs') with
      | some v =>
        obtain ⟨n, rest⟩ := v
        simp only [replaceAllPCGo, hm]
        exact (by decide : ('p' : Char).isDigit = false)
      | none =>
        simp only [replaceAllPCGo, hm]
        exact h

/-- Rewriting cannot create a pattern match where none could complete:
every inserted replacement starts with `p`, and every reachable matcher
state other than the initial one fails on `p`. -/
theorem noMatch_replaceAllPCGo (ds : List Char) :
    ∀ fuel : ℕ, ∀ cs : List Char, ∀ σ : MSt, cs.length ≤ fuel → ReachSt σ →
      noMatch σ cs = true → noMatch σ (replaceAllPCGo ds fuel cs) = true := by
  intro fuel
  induction fuel using Nat.strong_induction_on with
  | _ fuel IH =>
    intro cs σ hlen hreach hnm
    cases cs with
    | nil =>
      have hout : replaceAllPCGo ds fuel [] = [] := by cases fuel <;> rfl
      rw [hout]
      exact hnm
    | cons c cs' =>
      cases fuel with
      | zero => simp at hlen
      | succ f =>
        have hflen : cs'.length ≤ f := by
          simp only [List.length_cons] at hlen
          omega
        cases hm : headmatchPC (c :: cs') with
        | some v =>
          obtain ⟨n, rest⟩ := v
          have hout : replaceAllPCGo ds (f + 1) (c :: cs')
              = litPC ++ (' ' :: '=' :: ' ' :: ds)
                ++ replaceAllPCGo ds f rest := by
            simp [replaceAllPCGo, hm]
          rw [hout]
          rcases hreach with rfl | rfl | ⟨k, hk, rfl⟩
          · exact noMatch_wsEq_p _
          · exact noMatch_wsDig_p _
          · by_cases hk0 : k = 0
            · subst hk0
              rw [List.drop_zero] at hnm
              rw [noMatch_init_iff, hm] at hnm
              simp at hnm
            · exact noMatch_litk_p hk (by omega) _
        | none =>
          have hout : replaceAllPCGo ds (f + 1) (c :: cs')
              = c :: replaceAllPCGo ds f cs' := by
            simp [replaceAllPCGo, hm]
          rw [hout]
          rcases hreach with rfl | rfl | ⟨k, hk, rfl⟩
          · by_cases hw : isWS c
            · have h' : noMatch .wsEq cs' = true := by
                simpa [noMatch, hw] using hnm
              have := IH f (by omega) cs' .wsEq hflen (Or.inl rfl) h'
              simpa [noMatch, hw] using this
            · by_cases he : c = '='
              · subst he
                have h' : noMatch .wsDig cs' = true := by
                  simpa [noMatch, hw] using hnm
                have := IH f (by omega) cs' .wsDig hflen
                  (Or.inr (Or.inl rfl)) h'
                simpa [noMatch, hw] using this
              · simp [noMatch, hw, he]
          · by_cases hw : isWS c
            · have h' : noMatch .wsDig cs' = true := by
                simpa [noMatch, hw] using hnm
              have := IH f (by omega) cs' .wsDig hflen
                (Or.inr (Or.inl rfl)) h'
              simpa [noMatch, hw] using this
            · by_cases hd : c.isDigit
              · simp [noMatch, hw, hd] at hnm
              · simp [noMatch, hw, hd]
          · have hlen13 : (litPC.drop k).length = 13 - k := by
              simp [litPC]
            cases hdk : litPC.drop k with
            | nil =>
              rw [hdk] at hlen13
              simp at hlen13
              omega
            | cons x xs =>
              rw [hdk] at hnm
              by_cases hc : c = x
              · subst hc
                cases xs with
                | nil =>
                  have h' : noMatch .wsEq cs' = true := by
                    simpa [noMatch] using hnm
                  have := IH f (by omega) cs' .wsEq hflen (Or.inl rfl) h'
                  simpa [noMatch] using this
                | cons y ys =>
                  have h' : noMatch (.lit (y :: ys)) cs' = true := by
                    simpa [noMatch] using hnm
                  have hk11 : k ≤ 11 := by
                    rw [hdk] at hlen13
                    simp at hlen13
                    omega
                  have hdk1 : litPC.drop (k + 1) = y :: ys := by
                    rw [← List.drop_drop 1 k litPC, hdk]
                    rfl
                  have hreach' : ReachSt (.lit (y :: ys)) :=
                    Or.inr (Or.inr ⟨k + 1, by omega, by rw [hdk1]⟩)
                  have := IH f (by omega) cs' (.lit (y :: ys)) hflen hreach' h'
                  simpa [noMatch] using this
              · simp [noMatch, hc]

theorem extractPCAssignsGo_fuel :
    ∀ f1 : ℕ, ∀ f2 : ℕ, ∀ cs : List Char, cs.length ≤ f1 → cs.length ≤ f2 →
      extractPCAssignsGo f1 cs = extractPCAssignsGo f2 cs := by
  intro f1
  induction f1 using Nat.strong_induction_on with
  | _ f1 IH =>
    intro f2 cs h1 h2
    cases cs with
    | nil =>
      have ha : ∀ f, extractPCAssignsGo f ([] : List Char) = [] := fun f => by
        cases f <;> rfl
      rw [ha, ha]
    | cons c cs' =>
      cases f1 with
      | zero => simp at h1
      | succ g1 =>
        cases f2 with
        | zero => simp at h2
        | succ g2 =>
          simp only [List.length_cons] at h1 h2
          cases hm : headmatchPC (c :: cs') with
          | some v =>
            obtain ⟨ds, rest⟩ := v
            have hr := headmatchPC_length hm
            simp only [List.length_cons] at hr
            simp only [extractPCAssignsGo, hm]
            rw [IH g1 (by omega) g2 rest (by omega) (by omega)]
          | none =>
            simp only [extractPCAssignsGo, hm]
            exact IH g1 (by omega) g2 cs' (by omega) (by omega)

theorem extractPCAssigns_step {cs ds0 rest : List Char}
    (h : headmatchPC cs = some (ds0, rest)) :
    extractPCAssigns cs = ds0 :: extractPCAssigns rest := by
  obtain ⟨t, rfl⟩ := headmatchPC_starts_p h
  have hr := headmatchPC_length h
  simp only [List.length_cons] at hr
  unfold extractPCAssigns
  simp only [List.length_cons, extractPCAssignsGo, h]
  rw [extractPCAssignsGo_fuel t.length rest.length rest (by omega) (le_refl _)]

theorem extractPCAssigns_cons_none {c : Char} {cs' : List Char}
    (h : headmatchPC (c :: cs') = none) :
    extractPCAssigns (c :: cs') = extractPCAssigns cs' := by
  unfold extractPCAssigns
  simp only [List.length_cons, extractPCAssignsGo, h]

/-- Scanning the rewritten code recovers exactly one assignment of `ds` per
original assignment: the global rewrite replaces each match and creates no
new ones. -/
theorem extractPCAssigns_replaceAllPCGo (ds : List Char) (hne : ds ≠ [])
    (hds : ∀ c ∈ ds, c.isDigit = true) :
    ∀ fuel : ℕ, ∀ cs : List Char, cs.length ≤ fuel →
      extractPCAssigns (replaceAllPCGo ds fuel cs)
        = (extractPCAssigns cs).map (fun _ => ds) := by
  intro fuel
  induction fuel using Nat.strong_induction_on with
  | _ fuel IH =>
    intro cs hlen
    cases cs with
    | nil =>
      have hout : replaceAllPCGo ds fuel [] = [] := by cases fuel <;> rfl
      rw [hout]
      rfl
    | cons c cs' =>
      cases fuel with
      | zero => simp at hlen
      | succ f =>
        simp only [List.length_cons] at hlen
        cases hm : headmatchPC (c :: cs') with
        | some v =>
          obtain ⟨n, rest⟩ := v
          have hr := headmatchPC_length hm
          simp only [List.length_cons] at hr
          have hout : replaceAllPCGo ds (f + 1) (c :: cs')
              = litPC ++ (' ' :: '=' :: ' ' :: ds)
                ++ replaceAllPCGo ds f rest := by
            simp [replaceAllPCGo, hm]
          rw [hout]
          have hnd : headNotDigit (replaceAllPCGo ds f rest) :=
            headNotDigit_replaceAllPCGo ds f rest (headmatchPC_rest hm)
          rw [extractPCAssigns_step (headmatchPC_repl hne hds hnd)]
          rw [IH f (by omega) rest (by omega)]
          rw [extractPCAssigns_step hm]
          rfl
        | none =>
          have hout : replaceAllPCGo ds (f + 1) (c :: cs')
              = c :: replaceAllPCGo ds f cs' := by
            simp [replaceAllPCGo, hm]
          have h0 : noMatch (.lit litPC) (c :: cs') = true := by
            rw [noMatch_init_iff, hm]
            rfl
          have h1 := noMatch_replaceAllPCGo ds (f + 1) (c :: cs') (.lit litPC)
            (by simp; omega)
            (Or.inr (Or.inr ⟨0, by omega, by rw [List.drop_zero]⟩)) h0
          rw [hout, noMatch_init_iff] at h1
          have hm' : headmatchPC (c :: replaceAllPCGo ds f cs') = none :=
            Option.isNone_iff_eq_none.mp h1
          rw [hout, extractPCAssigns_cons_none hm',
            IH f (by omega) cs' (by omega), extractPCAssigns_cons_none hm]

theorem extractPCAssigns_replaceAllPC (ds cs : List Char) (hne : ds ≠ [])
    (hds : ∀ c ∈ ds, c.isDigit = true) :
    extractPCAssigns (replaceAllPC ds cs)
      = (extractPCAssigns cs).map (fun _ => ds) :=
  extractPCAssigns_replaceAllPCGo ds hne hds cs.length cs (le_refl _)

/-- C9: for every code string containing a literal assignment
`particleCount = <number>`, optimizeForPlatform with platform mobile
rewrites every such assignment to `particleCount = 50`, with platform
desktop rewrites every such assignment to `particleCount = 200`, and with
platform web — or any other value that is neither mobile nor desktop —
returns the code unchanged. -/
theorem C9_platform_particle_rewrite (code p : List Char)
    (hcontains : extractPCAssigns code ≠ [])
    (hp1 : p ≠ "mobile".data) (hp2 : p ≠ "desktop".data) :
    extractPCAssigns (EffectGenerator.optimizeForPlatform code "mobile".data)
        = (extractPCAssigns code).map (fun _ => "50".data)
    ∧ extractPCAssigns
          (EffectGenerator.optimizeForPlatform code "desktop".data)
        = (extractPCAssigns code).map (fun _ => "200".data)
    ∧ EffectGenerator.optimizeForPlatform code "web".data = code
    ∧ EffectGenerator.optimizeForPlatform code p = code := by
  refine ⟨?_, ?_, ?_, ?_⟩
  · show extractPCAssigns (EffectGenerator.optimizeForMobile code) = _
    exact extractPCAssigns_replaceAllPC "50".data code (by decide) (by decide)
  · show extractPCAssigns (EffectGenerator.optimizeForDesktop code) = _
    exact extractPCAssigns_replaceAllPC "200".data code (by decide) (by decide)
  · rfl
  · simp [EffectGenerator.optimizeForPlatform, hp1, hp2]

theorem C9_platform_particle_rewrite_witness :
    extractPCAssigns "const particleCount = 999; render();".data ≠ []
    ∧ "ios".data ≠ "mobile".data
    ∧ "ios".data ≠ "desktop".data
    ∧ (extractPCAssigns (EffectGenerator.optimizeForPlatform
          "const particleCount = 999; render();".data "mobile".data)
        = (extractPCAssigns
            "const particleCount = 999; render();".data).map
              (fun _ => "50".data)
      ∧ extractPCAssigns (EffectGenerator.optimizeForPlatform
            "const particleCount = 999; render();".data "desktop".data)
        = (extractPCAssigns
            "const particleCount = 999; render();".data).map
              (fun _ => "200".data)
      ∧ EffectGenerator.optimizeForPlatform
          "const particleCount = 999; render();".data "web".data
        = "const particleCount = 999; render();".data
      ∧ EffectGenerator.optimizeForPlatform
          "const particleCount = 999; render();".data "ios".data
        = "const particleCount = 999; render();".data) :=
  ⟨by decide, by decide, by decide,
    C9_platform_particle_rewrite
      "const particleCount = 999; render();".data "ios".data
      (by decide) (by decide) (by decide)⟩

/-! ### Insertion lemmas for substring presence / absence

Used to track which marker fragments survive the client constitution
enforcers: appends preserve occurrences, and a pattern that contains no
newline cannot straddle the boundary of an appended block that starts with
a newline. -/

theorem substrB_cons_of {m : List Char} (c : Char) {cs : List Char}
    (h : substrB m cs = true) : substrB m (c :: cs) = true := by
  simp [substrB, h]

theorem prefixB_append_not_mem (c : Char) :
    ∀ pat : List Char, c ∉ pat → ∀ w b : List Char,
      prefixB pat (w ++ c :: b) = prefixB pat w := by
  intro pat
  induction pat with
  | nil => intro _ w b; rfl
  | cons p ps ih =>
    intro hc w b
    cases w with
    | nil =>
      have hpc : ¬ (p = c) := fun h => hc (by simp [h])
      simp [prefixB, hpc]
    | cons x w2 =>
      have hcp : c ∉ ps := fun h => hc (List.mem_cons_of_mem _ h)
      simp [prefixB, ih hcp w2 b]

theorem substrB_append_not_mem (c : Char) (pat : List Char) (hpat : pat ≠ [])
    (hc : c ∉ pat) (a b : List Char) :
    substrB pat (a ++ c :: b) = (substrB pat a || substrB pat (c :: b)) := by
  induction a with
  | nil =>
    obtain ⟨p, ps, rfl⟩ : ∃ p ps, pat = p :: ps := by
      cases pat with
      | nil => exact absurd rfl hpat
      | cons p ps => exact ⟨p, ps, rfl⟩
    simp [substrB, prefixB]
  | cons x a2 ih =>
    rw [List.cons_append]
    simp only [substrB]
    rw [← List.cons_append, prefixB_append_not_mem c pat hc (x :: a2) b, ih]
    simp [substrB, Bool.or_assoc]

theorem substrB_append_block_false {pat a b : List Char} (hpat : pat ≠ [])
    (hc : ('\n' : Char) ∉ pat) (hb : ∃ tl, b = '\n' :: tl)
    (ha : substrB pat a = false) (hbf : substrB pat b = false) :
    substrB pat (a ++ b) = false := by
  obtain ⟨tl, rfl⟩ := hb
  rw [substrB_append_not_mem '\n' pat hpat hc a tl, ha, hbf]
  rfl

theorem replaceFirstLit_of_not_substr {pat repl cs : List Char}
    (h : substrB pat cs = false) : replaceFirstLit pat repl cs = cs := by
  induction cs with
  | nil => rfl
  | cons c cs ih =>
    simp only [substrB, Bool.or_eq_false_iff] at h
    obtain ⟨h1, h2⟩ := h
    simp only [replaceFirstLit]
    rw [if_neg (fun hh => by simp [h1] at hh), ih h2]

theorem substrB_replaceFirstLit_mem {pat repl m cs : List Char}
    (hpat : pat ≠ []) (hocc : substrB pat cs = true)
    (hm : substrB m repl = true) :
    substrB m (replaceFirstLit pat repl cs) = true := by
  induction cs with
  | nil =>
    obtain ⟨p, ps, rfl⟩ : ∃ p ps, pat = p :: ps := by
      cases pat with
      | nil => exact absurd rfl hpat
      | cons p ps => exact ⟨p, ps, rfl⟩
    simp [substrB, prefixB] at hocc
  | cons c cs ih =>
    by_cases hp : prefixB pat (c :: cs) = true
    · simp only [replaceFirstLit, if_pos (And.intro hpat hp)]
      exact substrB_append_left _ hm
    · have hcond : ¬(pat ≠ [] ∧ prefixB pat (c :: cs) = true) := fun hh => hp hh.2
      simp only [replaceFirstLit, if_neg hcond]
      have hocc2 : substrB pat cs = true := by
        simp only [substrB, Bool.or_eq_true] at hocc
        rcases hocc with h | h
        · exact absurd h hp
        · exact h
      exact substrB_cons_of c (ih hocc2)

/-- Number of positions at which `pat` matches inside a string (counts
overlapping occurrences too; used only to witness duplication of appended
blocks). -/
def countOccur (pat : List Char) : List Char → ℕ
  | [] => 0
  | c :: cs => (if prefixB pat (c :: cs) = true then 1 else 0) + countOccur pat cs

namespace ClientConstitution

/-- Articles 2–7 of the client engine only ever append a fixed block to the
code (or leave it alone); they never touch fps, renderTime or the DNA, and
article 7 forces the stored constitutionScore up to at least 95.  Each
appended block starts with a newline and does not contain `this.init();`. -/
theorem enforceStep_tail_spec (g : GeneratedEffect) (i : ℕ)
    (h2 : 2 ≤ i) (h7 : i ≤ 7) :
    ∃ s, (enforceStep g i).code = g.code ++ s
    ∧ (enforceStep g i).metadata.fps = g.metadata.fps
    ∧ (enforceStep g i).metadata.renderTime = g.metadata.renderTime
    ∧ (enforceStep g i).dna = g.dna
    ∧ (i ≠ 7 → (enforceStep g i).metadata.constitutionScore
        = g.metadata.constitutionScore)
    ∧ (i = 7 → 95 ≤ (enforceStep g i).metadata.constitutionScore)
    ∧ (s = [] ∨ (∃ tl, s = '\n' :: tl)
        ∧ substrB "this.init();".data s = false) := by
  interval_cases i
  · by_cases hv : validator 2 g = true
    · have hg : enforceStep g 2 = g := by unfold enforceStep; rw [if_pos hv]
      rw [hg]
      exact ⟨[], by simp, rfl, rfl, rfl, fun _ => rfl,
        fun h => absurd h (by decide), Or.inl rfl⟩
    · by_cases hm : substrB "autoCalibrate".data g.code = true
      · have hg : enforceStep g 2 = g := by
          unfold enforceStep
          rw [if_neg hv]
          simp [enforcer, enforceIntelligenceAdaptative, hm]
        rw [hg]
        exact ⟨[], by simp, rfl, rfl, rfl, fun _ => rfl,
          fun h => absurd h (by decide), Or.inl rfl⟩
      · have hg : enforceStep g 2
            = { g with code := g.code ++ autoCalibrateBlock } := by
          unfold enforceStep
          rw [if_neg hv]
          simp [enforcer, enforceIntelligenceAdaptative, hm]
        rw [hg]
        exact ⟨autoCalibrateBlock, rfl, rfl, rfl, rfl, fun _ => rfl,
          fun h => absurd h (by decide),
          Or.inr ⟨⟨autoCalibrateBlock.tail, by decide⟩, by decide⟩⟩
  · by_cases hv : validator 3 g = true
    · have hg : enforceStep g 3 = g := by unfold enforceStep; rw [if_pos hv]
      rw [hg]
      exact ⟨[], by simp, rfl, rfl, rfl, fun _ => rfl,
        fun h => absurd h (by decide), Or.inl rfl⟩
    · by_cases hm : substrB "detectPlatform".data g.code = true
      · have hg : enforceStep g 3 = g := by
          unfold enforceStep
          rw [if_neg hv]
          simp [enforcer, enforcePolyvalenceUniverselle, hm]
        rw [hg]
        exact ⟨[], by simp, rfl, rfl, rfl, fun _ => rfl,
          fun h => absurd h (by decide), Or.inl rfl⟩
      · have hg : enforceStep g 3
            = { g with code := g.code ++ detectPlatformBlock } := by
          unfold enforceStep
          rw [if_neg hv]
          simp [enforcer, enforcePolyvalenceUniverselle, hm]
        rw [hg]
        exact ⟨detectPlatformBlock, rfl, rfl, rfl, rfl, fun _ => rfl,
          fun h => absurd h (by decide),
          Or.inr ⟨⟨detectPlatformBlock.tail, by decide⟩, by decide⟩⟩
  · by_cases hv : validator 4 g = true
    · have hg : enforceStep g 4 = g := by unfold enforceStep; rw [if_pos hv]
      rw [hg]
      exact ⟨[], by simp, rfl, rfl, rfl, fun _ => rfl,
        fun h => absurd h (by decide), Or.inl rfl⟩
    · by_cases hm : substrB "oneClick".data g.code = true
      · have hg : enforceStep g 4 = g := by
          unfold enforceStep
          rw [if_neg hv]
          simp [enforcer, enforceExperienceParfaite, hm]
        rw [hg]
        exact ⟨[], by simp, rfl, rfl, rfl, fun _ => rfl,
          fun h => absurd h (by decide), Or.inl rfl⟩
      · have hg : enforceStep g 4
            = { g with code := g.code ++ oneClickBlock } := by
          unfold enforceStep
          rw [if_neg hv]
          simp [enforcer, enforceExperienceParfaite, hm]
        rw [hg]
        exact ⟨oneClickBlock, rfl, rfl, rfl, rfl, fun _ => rfl,
          fun h => absurd h (by decide),
          Or.inr ⟨⟨oneClickBlock.tail, by decide⟩, by decide⟩⟩
  · by_cases hv : validator 5 g = true
    · have hg : enforceStep g 5 = g := by unfold enforceStep; rw [if_pos hv]
      rw [hg]
      exact ⟨[], by simp, rfl, rfl, rfl, fun _ => rfl,
        fun h => absurd h (by decide), Or.inl rfl⟩
    · by_cases hm : substrB "wowFactor".data g.code = true
      · have hg : enforceStep g 5 = g := by
          unfold enforceStep
          rw [if_neg hv]
          simp [enforcer, enforceImpactVisuel, hm]
        rw [hg]
        exact ⟨[], by simp, rfl, rfl, rfl, fun _ => rfl,
          fun h => absurd h (by decide), Or.inl rfl⟩
      · have hg : enforceStep g 5
            = { g with code := g.code ++ wowFactorBlock } := by
          unfold enforceStep
          rw [if_neg hv]
          simp [enforcer, enforceImpactVisuel, hm]
        rw [hg]
        exact ⟨wowFactorBlock, rfl, rfl, rfl, rfl, fun _ => rfl,
          fun h => absurd h (by decide),
          Or.inr ⟨⟨wowFactorBlock.tail, by decide⟩, by decide⟩⟩
  · by_cases hv : validator 6 g = true
    · have hg : enforceStep g 6 = g := by unfold enforceStep; rw [if_pos hv]
      rw [hg]
      exact ⟨[], by simp, rfl, rfl, rfl, fun _ => rfl,
        fun h => absurd h (by decide), Or.inl rfl⟩
    · by_cases hm : substrB "immersive".data g.code = true
      · have hg : enforceStep g 6 = g := by
          unfold enforceStep
          rw [if_neg hv]
          simp [enforcer, enforceEcosystemeAddictif, hm]
        rw [hg]
        exact ⟨[], by simp, rfl, rfl, rfl, fun _ => rfl,
          fun h => absurd h (by decide), Or.inl rfl⟩
      · have hg : enforceStep g 6
            = { g with code := g.code ++ immersiveBlock } := by
          unfold enforceStep
          rw [if_neg hv]
          simp [enforcer, enforceEcosystemeAddictif, hm]
        rw [hg]
        exact ⟨immersiveBlock, rfl, rfl, rfl, rfl, fun _ => rfl,
          fun h => absurd h (by decide),
          Or.inr ⟨⟨immersiveBlock.tail, by decide⟩, by decide⟩⟩
  · by_cases hv : validator 7 g = true
    · have hg : enforceStep g 7 = g := by unfold enforceStep; rw [if_pos hv]
      have hcs : 95 ≤ g.metadata.constitutionScore := by
        simpa [validator] using hv
      rw [hg]
      exact ⟨[], by simp, rfl, rfl, rfl, fun h => absurd rfl h,
        fun _ => hcs, Or.inl rfl⟩
    · have hg : enforceStep g 7
          = { g with
              code := g.code ++ competitiveBlock
              metadata := { g.metadata with
                constitutionScore :=
                  jsMax g.metadata.constitutionScore 95 } } := by
        unfold enforceStep
        rw [if_neg hv]
        simp [enforcer, enforceDominationConcurrentielle]
      rw [hg]
      refine ⟨competitiveBlock, rfl, rfl, rfl, rfl, fun h => absurd rfl h,
        fun _ => ?_,
        Or.inr ⟨⟨competitiveBlock.tail, by decide⟩, by decide⟩⟩
      unfold jsMax
      split_ifs with h
      · norm_num
      · linarith

end ClientConstitution

theorem init_absence_step {a s : List Char}
    (hs : s = [] ∨ (∃ tl, s = '\n' :: tl)
      ∧ substrB "this.init();".data s = false)
    (ha : substrB "this.init();".data a = false) :
    substrB "this.init();".data (a ++ s) = false := by
  rcases hs with rfl | ⟨hnl, hsf⟩
  · simpa using ha
  · exact substrB_append_block_false (by decide) (by decide) hnl ha hsf

namespace ClientConstitution

/-- The composite of the article 2–7 loop iterations. -/
def tail7 (g : GeneratedEffect) : GeneratedEffect :=
  enforceStep (enforceStep (enforceStep (enforceStep (enforceStep
    (enforceStep g 2) 3) 4) 5) 6) 7

theorem applyArticles_eq_tail7 (f : GeneratedEffect) :
    applyArticles f = tail7 (enforceStep f 1) := by
  simp only [applyArticles, articleIds, List.foldl_cons, List.foldl_nil, tail7]

theorem tail7_spec (g : GeneratedEffect) :
    ∃ s, (tail7 g).code = g.code ++ s
    ∧ (tail7 g).metadata.fps = g.metadata.fps
    ∧ (tail7 g).metadata.renderTime = g.metadata.renderTime
    ∧ (tail7 g).dna = g.dna
    ∧ 95 ≤ (tail7 g).metadata.constitutionScore
    ∧ (substrB "this.init();".data g.code = false →
        substrB "this.init();".data (tail7 g).code = false) := by
  obtain ⟨s2, hc2, hf2, hr2, hd2, hq2, _, hb2⟩ :=
    enforceStep_tail_spec g 2 (by omega) (by omega)
  obtain ⟨s3, hc3, hf3, hr3, hd3, hq3, _, hb3⟩ :=
    enforceStep_tail_spec (enforceStep g 2) 3 (by omega) (by omega)
  obtain ⟨s4, hc4, hf4, hr4, hd4, hq4, _, hb4⟩ :=
    enforceStep_tail_spec (enforceStep (enforceStep g 2) 3) 4
      (by omega) (by omega)
  obtain ⟨s5, hc5, hf5, hr5, hd5, hq5, _, hb5⟩ :=
    enforceStep_tail_spec (enforceStep (enforceStep (enforceStep g 2) 3) 4) 5
      (by omega) (by omega)
  obtain ⟨s6, hc6, hf6, hr6, hd6, hq6, _, hb6⟩ :=
    enforceStep_tail_spec (enforceStep (enforceStep (enforceStep
      (enforceStep g 2) 3) 4) 5) 6 (by omega) (by omega)
  obtain ⟨s7, hc7, hf7, hr7, hd7, _, hq7, hb7⟩ :=
    enforceStep_tail_spec (enforceStep (enforceStep (enforceStep (enforceStep
      (enforceStep g 2) 3) 4) 5) 6) 7 (by omega) (by omega)
  refine ⟨s2 ++ (s3 ++ (s4 ++ (s5 ++ (s6 ++ s7)))), ?_, ?_, ?_, ?_, ?_, ?_⟩
  · show (tail7 g).code = _
    unfold tail7
    rw [hc7, hc6, hc5, hc4, hc3, hc2]
    simp [List.append_assoc]
  · show (tail7 g).metadata.fps = _
    unfold tail7
    rw [hf7, hf6, hf5, hf4, hf3, hf2]
  · show (tail7 g).metadata.renderTime = _
    unfold tail7
    rw [hr7, hr6, hr5, hr4, hr3, hr2]
  · show (tail7 g).dna = _
    unfold tail7
    rw [hd7, hd6, hd5, hd4, hd3, hd2]
  · exact hq7 rfl
  · intro h
    show substrB "this.init();".data (tail7 g).code = false
    unfold tail7
    rw [hc7]
    refine init_absence_step hb7 ?_
    rw [hc6]
    refine init_absence_step hb6 ?_
    rw [hc5]
    refine init_absence_step hb5 ?_
    rw [hc4]
    refine init_absence_step hb4 ?_
    rw [hc3]
    refine init_absence_step hb3 ?_
    rw [hc2]
    exact init_absence_step hb2 h

end ClientConstitution

namespace ClientConstitution

/-- Behaviour of the article-1 loop iteration: render time, score and DNA
are untouched, fps ends at least 60 (and is unchanged when it already was),
and the code is only rewritten through the `this.init();` replacement —
which cannot happen again once `performanceMonitor` has been inserted or
when `this.init();` is absent. -/
theorem enforceStep_one_spec (f : GeneratedEffect) :
    (enforceStep f 1).metadata.renderTime = f.metadata.renderTime
    ∧ (enforceStep f 1).metadata.constitutionScore
        = f.metadata.constitutionScore
    ∧ (enforceStep f 1).dna = f.dna
    ∧ 60 ≤ (enforceStep f 1).metadata.fps
    ∧ (60 ≤ f.metadata.fps →
        (enforceStep f 1).metadata.fps = f.metadata.fps)
    ∧ (validator 1 f = false →
        substrB "performanceMonitor".data (enforceStep f 1).code = true
        ∨ (substrB "this.init();".data f.code = false
           ∧ substrB "this.init();".data (enforceStep f 1).code = false))
    ∧ ((substrB "performanceMonitor".data f.code = true
        ∨ substrB "this.init();".data f.code = false
        ∨ validator 1 f = true) →
        ∃ s, (enforceStep f 1).code = f.code ++ s) := by
  by_cases hv : validator 1 f = true
  · have hg : enforceStep f 1 = f := by unfold enforceStep; rw [if_pos hv]
    have hfps : 60 ≤ f.metadata.fps := by
      simp only [validator, Bool.and_eq_true, decide_eq_true_eq] at hv
      exact hv.1
    rw [hg]
    exact ⟨rfl, rfl, rfl, hfps, fun _ => rfl,
      fun h => absurd hv (by simp [h]), fun _ => ⟨[], by simp⟩⟩
  · have hg : enforceStep f 1 = enforcePerformanceAbsolue f := by
      unfold enforceStep
      rw [if_neg hv]
      rfl
    rw [hg]
    have hfx : 60 ≤ jsMax f.metadata.fps 60 := by
      unfold jsMax
      split_ifs with h
      · norm_num
      · linarith
    have hfe : 60 ≤ f.metadata.fps → jsMax f.metadata.fps 60 = f.metadata.fps := by
      intro h
      unfold jsMax
      split_ifs with h2
      · exact (le_antisymm h2 h).symm
      · rfl
    by_cases hpm : substrB "performanceMonitor".data f.code = true
    · by_cases hop : substrB "optimizeForNextFrame".data f.code = true
      · have hE : enforcePerformanceAbsolue f = { f with
            metadata := { f.metadata with
              fps := jsMax f.metadata.fps 60 } } := by
          simp [enforcePerformanceAbsolue, hpm, hop]
        rw [hE]
        exact ⟨rfl, rfl, rfl, hfx, fun h => hfe h, fun _ => Or.inl hpm,
          fun _ => ⟨[], by simp⟩⟩
      · have hE : enforcePerformanceAbsolue f = { f with
            code := f.code ++ optimizeFrameBlock
            metadata := { f.metadata with
              fps := jsMax f.metadata.fps 60 } } := by
          simp [enforcePerformanceAbsolue, hpm, hop]
        rw [hE]
        exact ⟨rfl, rfl, rfl, hfx, fun h => hfe h,
          fun _ => Or.inl (substrB_append_left _ hpm),
          fun _ => ⟨optimizeFrameBlock, rfl⟩⟩
    · have hpm2 : substrB "performanceMonitor".data f.code = false := by
        simpa using hpm
      by_cases hpt : substrB "this.init();".data f.code = true
      · have hc1 : substrB "performanceMonitor".data
            (replaceFirstLit "this.init();".data perfMonitorRepl f.code)
              = true :=
          substrB_replaceFirstLit_mem (by decide) hpt (by decide)
        by_cases hop : substrB "optimizeForNextFrame".data
            (replaceFirstLit "this.init();".data perfMonitorRepl f.code)
              = true
        · have hE : enforcePerformanceAbsolue f = { f with
              code := replaceFirstLit "this.init();".data perfMonitorRepl
                f.code
              metadata := { f.metadata with
                fps := jsMax f.metadata.fps 60 } } := by
            simp [enforcePerformanceAbsolue, hpm2, hop]
          rw [hE]
          refine ⟨rfl, rfl, rfl, hfx, fun h => hfe h, fun _ => Or.inl hc1,
            fun h => ?_⟩
          rcases h with h | h | h
          · rw [hpm2] at h
            exact absurd h (by decide)
          · rw [h] at hpt
            exact absurd hpt (by decide)
          · exact absurd h hv
        · have hE : enforcePerformanceAbsolue f = { f with
              code := replaceFirstLit "this.init();".data perfMonitorRepl
                f.code ++ optimizeFrameBlock
              metadata := { f.metadata with
                fps := jsMax f.metadata.fps 60 } } := by
            simp [enforcePerformanceAbsolue, hpm2, hop]
          rw [hE]
          refine ⟨rfl, rfl, rfl, hfx, fun h => hfe h,
            fun _ => Or.inl (substrB_append_left _ hc1), fun h => ?_⟩
          rcases h with h | h | h
          · rw [hpm2] at h
            exact absurd h (by decide)
          · rw [h] at hpt
            exact absurd hpt (by decide)
          · exact absurd h hv
      · have hpt2 : substrB "this.init();".data f.code = false := by
          simpa using hpt
        have hc1 : replaceFirstLit "this.init();".data perfMonitorRepl
            f.code = f.code :=
          replaceFirstLit_of_not_substr hpt2
        by_cases hop : substrB "optimizeForNextFrame".data f.code = true
        · have hE : enforcePerformanceAbsolue f = { f with
              metadata := { f.metadata with
                fps := jsMax f.metadata.fps 60 } } := by
            simp [enforcePerformanceAbsolue, hpm2, hc1, hop]
          rw [hE]
          exact ⟨rfl, rfl, rfl, hfx, fun h => hfe h,
            fun _ => Or.inr ⟨hpt2, hpt2⟩, fun _ => ⟨[], by simp⟩⟩
        · have hE : enforcePerformanceAbsolue f = { f with
              code := f.code ++ optimizeFrameBlock
              metadata := { f.metadata with
                fps := jsMax f.metadata.fps 60 } } := by
            simp [enforcePerformanceAbsolue, hpm2, hc1, hop]
          rw [hE]
          refine ⟨rfl, rfl, rfl, hfx, fun h => hfe h,
            fun _ => Or.inr ⟨hpt2, ?_⟩,
            fun _ => ⟨optimizeFrameBlock, rfl⟩⟩
          exact substrB_append_block_false (by decide) (by decide)
            ⟨optimizeFrameBlock.tail, by decide⟩ hpt2 (by decide)

end ClientConstitution

namespace ClientConstitution

/-- Net effect of one full pass of the enforcement loop. -/
theorem applyArticles_spec (f : GeneratedEffect) :
    (applyArticles f).metadata.renderTime = f.metadata.renderTime
    ∧ (applyArticles f).dna = f.dna
    ∧ 60 ≤ (applyArticles f).metadata.fps
    ∧ 95 ≤ (applyArticles f).metadata.constitutionScore
    ∧ (60 ≤ f.metadata.fps →
        (applyArticles f).metadata.fps = f.metadata.fps)
    ∧ (validator 1 f = false →
        substrB "performanceMonitor".data (applyArticles f).code = true
        ∨ substrB "this.init();".data (applyArticles f).code = false)
    ∧ ((substrB "performanceMonitor".data f.code = true
        ∨ substrB "this.init();".data f.code = false
        ∨ validator 1 f = true) →
        ∃ s, (applyArticles f).code = f.code ++ s) := by
  obtain ⟨hrt1, hcs1, hdna1, hfps1, hfps1eq, hK, hext⟩ := enforceStep_one_spec f
  obtain ⟨s, hcode, hfps, hrt, hdna, hcs95, hpat⟩ := tail7_spec (enforceStep f 1)
  rw [applyArticles_eq_tail7]
  refine ⟨by rw [hrt, hrt1], by rw [hdna, hdna1], by rw [hfps]; exact hfps1,
    hcs95, fun h => by rw [hfps]; exact hfps1eq h, ?_, ?_⟩
  · intro hv
    rcases hK hv with hpm | ⟨_, hpat1⟩
    · left
      rw [hcode]
      exact substrB_append_left s hpm
    · right
      exact hpat hpat1
  · intro h
    obtain ⟨s1, hs1⟩ := hext h
    exact ⟨s1 ++ s, by rw [hcode, hs1, List.append_assoc]⟩

end ClientConstitution

theorem twoMarkerScore_mono {a1 a2 b1 b2 : Bool}
    (h1 : a1 = true → b1 = true) (h2 : a2 = true → b2 = true) :
    (if a1 && a2 then (100 : ℚ) else if a1 then 50 else 0)
      ≤ (if b1 && b2 then 100 else if b1 then 50 else 0) := by
  cases a1 <;> cases a2 <;> cases b1 <;> cases b2 <;> simp_all <;> norm_num

theorem twoMarkerQScore_mono {a1 a2 b1 b2 : Bool} {q : ℚ}
    (h1 : a1 = true → b1 = true) (h2 : a2 = true → b2 = true)
    (hq : q ≤ 100) :
    (if a1 && a2 then (100 : ℚ) else q) ≤ (if b1 && b2 then 100 else q) := by
  cases a1 <;> cases a2 <;> cases b1 <;> cases b2 <;> simp_all

theorem jsRound_mono {a b : ℚ} (h : a ≤ b) : jsRound a ≤ jsRound b :=
  Int.floor_mono (by linarith)

namespace ClientConstitution

theorem enforceCompliance_code (x : GeneratedEffect) :
    (enforceCompliance x).code = (applyArticles x).code := by
  simp only [enforceCompliance]

theorem enforceCompliance_fps (x : GeneratedEffect) :
    (enforceCompliance x).metadata.fps = (applyArticles x).metadata.fps := by
  simp only [enforceCompliance]

theorem enforceCompliance_renderTime (x : GeneratedEffect) :
    (enforceCompliance x).metadata.renderTime
      = (applyArticles x).metadata.renderTime := by
  simp only [enforceCompliance]

theorem enforceCompliance_dna (x : GeneratedEffect) :
    (enforceCompliance x).dna = (applyArticles x).dna := by
  simp only [enforceCompliance]

theorem enforceCompliance_score (x : GeneratedEffect) :
    (enforceCompliance x).metadata.constitutionScore
      = ((jsRound ((articleIds.map fun i =>
          articleScore i (applyArticles x)).sum / 7) : ℤ) : ℚ) := by
  simp only [enforceCompliance, validateCompliance]

end ClientConstitution

set_option maxHeartbeats 1600000 in
/-- C3 (amended): the enforcers of articles 2–6 are guarded — a marker
fragment already present in the code is never appended again — and running
the client compliance enforcement twice yields a total score at least the
score of the first run (for emotional-profile values in the unit range, as
produced by the analyzer).  The original claim's no-duplication part fails
for article 7, whose enforcer appends its block unconditionally. -/
theorem C3_guarded_enforcers_and_monotone_score
    (e : ClientConstitution.GeneratedEffect)
    (hen : e.dna.emotionalProfile.energy ≤ 1)
    (hel : e.dna.emotionalProfile.elegance ≤ 1) :
    (substrB "autoCalibrate".data e.code = true →
      ClientConstitution.enforcer 2 e = e)
    ∧ (substrB "detectPlatform".data e.code = true →
      ClientConstitution.enforcer 3 e = e)
    ∧ (substrB "oneClick".data e.code = true →
      ClientConstitution.enforcer 4 e = e)
    ∧ (substrB "wowFactor".data e.code = true →
      ClientConstitution.enforcer 5 e = e)
    ∧ (substrB "immersive".data e.code = true →
      ClientConstitution.enforcer 6 e = e)
    ∧ (ClientConstitution.enforceCompliance
          (ClientConstitution.enforceCompliance e)).metadata.constitutionScore
        ≥ (ClientConstitution.enforceCompliance e).metadata.constitutionScore
    := by
  refine ⟨fun h => by
      simp [ClientConstitution.enforcer,
        ClientConstitution.enforceIntelligenceAdaptative, h],
    fun h => by
      simp [ClientConstitution.enforcer,
        ClientConstitution.enforcePolyvalenceUniverselle, h],
    fun h => by
      simp [ClientConstitution.enforcer,
        ClientConstitution.enforceExperienceParfaite, h],
    fun h => by
      simp [ClientConstitution.enforcer,
        ClientConstitution.enforceImpactVisuel, h],
    fun h => by
      simp [ClientConstitution.enforcer,
        ClientConstitution.enforceEcosystemeAddictif, h],
    ?_⟩
  obtain ⟨hrt1, hdna1, hfps60_1, hcs95_1, hfpseq1, hK1, hext1⟩ :=
    ClientConstitution.applyArticles_spec e
  have hEcode := ClientConstitution.enforceCompliance_code e
  have hEfps := ClientConstitution.enforceCompliance_fps e
  have hErt := ClientConstitution.enforceCompliance_renderTime e
  have hEdna := ClientConstitution.enforceCompliance_dna e
  obtain ⟨hrt2, hdna2, hfps60_2, hcs95_2, hfpseq2, hK2, hext2⟩ :=
    ClientConstitution.applyArticles_spec (ClientConstitution.enforceCompliance e)
  have hfpsA2 : (ClientConstitution.applyArticles
        (ClientConstitution.enforceCompliance e)).metadata.fps
      = (ClientConstitution.applyArticles e).metadata.fps := by
    rw [hfpseq2 (by rw [hEfps]; exact hfps60_1), hEfps]
  have hrtA2 : (ClientConstitution.applyArticles
        (ClientConstitution.enforceCompliance e)).metadata.renderTime
      = (ClientConstitution.applyArticles e).metadata.renderTime := by
    rw [hrt2, hErt]
  have hdnaA2 : (ClientConstitution.applyArticles
        (ClientConstitution.enforceCompliance e)).dna
      = (ClientConstitution.applyArticles e).dna := by
    rw [hdna2, hEdna]
  have hdisj : substrB "performanceMonitor".data
        (ClientConstitution.enforceCompliance e).code = true
      ∨ substrB "this.init();".data
        (ClientConstitution.enforceCompliance e).code = false
      ∨ ClientConstitution.validator 1
        (ClientConstitution.enforceCompliance e) = true := by
    by_cases hv : ClientConstitution.validator 1
        (ClientConstitution.enforceCompliance e) = true
    · exact Or.inr (Or.inr hv)
    · have hfpsEe : 60 ≤ (ClientConstitution.enforceCompliance e).metadata.fps := by
        rw [hEfps]
        exact hfps60_1
      have hrtbig : ¬ ((ClientConstitution.enforceCompliance e).metadata.renderTime
          < 200) := by
        intro hlt
        exact hv (by simp [ClientConstitution.validator, hfpsEe, hlt])
      have hrte : ¬ (e.metadata.renderTime < 200) := by
        rw [hErt, hrt1] at hrtbig
        exact hrtbig
      have hv1 : ClientConstitution.validator 1 e = false := by
        cases hb : ClientConstitution.validator 1 e
        · rfl
        · exfalso
          simp only [ClientConstitution.validator, Bool.and_eq_true,
            decide_eq_true_eq] at hb
          exact hrte hb.2
      rcases hK1 hv1 with hpm | hpat
      · exact Or.inl (by rw [hEcode]; exact hpm)
      · exact Or.inr (Or.inl (by rw [hEcode]; exact hpat))
  obtain ⟨sA, hsA⟩ := hext2 hdisj
  have hPres : ∀ m, substrB m (ClientConstitution.applyArticles e).code = true →
      substrB m (ClientConstitution.applyArticles
        (ClientConstitution.enforceCompliance e)).code = true := by
    intro m hm
    rw [hsA, hEcode]
    exact substrB_append_left sA hm
  have h1eq : ClientConstitution.articleScore 1
        (ClientConstitution.applyArticles (ClientConstitution.enforceCompliance e))
      = ClientConstitution.articleScore 1 (ClientConstitution.applyArticles e) := by
    simp only [ClientConstitution.articleScore, ClientConstitution.validator,
      ClientConstitution.calculatePartialScore, hfpsA2, hrtA2]
  have h2le : ClientConstitution.articleScore 2 (ClientConstitution.applyArticles e)
      ≤ ClientConstitution.articleScore 2
        (ClientConstitution.applyArticles
          (ClientConstitution.enforceCompliance e)) := by
    simp only [ClientConstitution.articleScore, ClientConstitution.validator,
      ClientConstitution.calculatePartialScore]
    exact twoMarkerScore_mono (hPres _) (hPres _)
  have h3le : ClientConstitution.articleScore 3 (ClientConstitution.applyArticles e)
      ≤ ClientConstitution.articleScore 3
        (ClientConstitution.applyArticles
          (ClientConstitution.enforceCompliance e)) := by
    simp only [ClientConstitution.articleScore, ClientConstitution.validator,
      ClientConstitution.calculatePartialScore]
    exact twoMarkerScore_mono (hPres _) (hPres _)
  have h4le : ClientConstitution.articleScore 4 (ClientConstitution.applyArticles e)
      ≤ ClientConstitution.articleScore 4
        (ClientConstitution.applyArticles
          (ClientConstitution.enforceCompliance e)) := by
    simp only [ClientConstitution.articleScore, ClientConstitution.validator,
      ClientConstitution.calculatePartialScore]
    exact twoMarkerScore_mono (hPres _) (hPres _)
  have helA1 : (ClientConstitution.applyArticles e).dna.emotionalProfile.elegance
      ≤ 1 := by
    rw [hdna1]
    exact hel
  have henA1 : (ClientConstitution.applyArticles e).dna.emotionalProfile.energy
      ≤ 1 := by
    rw [hdna1]
    exact hen
  have h5le : ClientConstitution.articleScore 5 (ClientConstitution.applyArticles e)
      ≤ ClientConstitution.articleScore 5
        (ClientConstitution.applyArticles
          (ClientConstitution.enforceCompliance e)) := by
    simp only [ClientConstitution.articleScore, ClientConstitution.validator,
      ClientConstitution.calculatePartialScore, hdnaA2]
    refine twoMarkerQScore_mono (hPres _) (hPres _) ?_
    have := mul_le_mul_of_nonneg_right helA1 (by norm_num : (0:ℚ) ≤ 100)
    linarith
  have h6le : ClientConstitution.articleScore 6 (ClientConstitution.applyArticles e)
      ≤ ClientConstitution.articleScore 6
        (ClientConstitution.applyArticles
          (ClientConstitution.enforceCompliance e)) := by
    simp only [ClientConstitution.articleScore, ClientConstitution.validator,
      ClientConstitution.calculatePartialScore, hdnaA2]
    refine twoMarkerQScore_mono (hPres _) (fun h => h) ?_
    have := mul_le_mul_of_nonneg_right henA1 (by norm_num : (0:ℚ) ≤ 100)
    linarith
  have h7le : ClientConstitution.articleScore 7 (ClientConstitution.applyArticles e)
      ≤ ClientConstitution.articleScore 7
        (ClientConstitution.applyArticles
          (ClientConstitution.enforceCompliance e)) := by
    have e1 : ClientConstitution.articleScore 7
        (ClientConstitution.applyArticles e) = 100 := by
      simp [ClientConstitution.articleScore, ClientConstitution.validator,
        hcs95_1]
    have e2 : ClientConstitution.articleScore 7
        (ClientConstitution.applyArticles
          (ClientConstitution.enforceCompliance e)) = 100 := by
      simp [ClientConstitution.articleScore, ClientConstitution.validator,
        hcs95_2]
    rw [e1, e2]
  have hcsE := ClientConstitution.enforceCompliance_score
  rw [hcsE, hcsE]
  refine ge_iff_le.mpr ?_
  have hS : (ClientConstitution.articleIds.map fun i =>
        ClientConstitution.articleScore i
          (ClientConstitution.applyArticles e)).sum
      ≤ (ClientConstitution.articleIds.map fun i =>
        ClientConstitution.articleScore i
          (ClientConstitution.applyArticles
            (ClientConstitution.enforceCompliance e))).sum := by
    simp only [ClientConstitution.articleIds, List.map_cons, List.map_nil,
      List.sum_cons, List.sum_nil]
    linarith
  exact_mod_cast jsRound_mono (by linarith)

/-- A generated effect whose code already carries the first marker of each
of articles 2–6, with fps 60, renderTime 0 and constitutionScore 0. -/
def e3 : ClientConstitution.GeneratedEffect :=
  { id := "fx-1".data
    name := "Test".data
    description := "".data
    code := "autoCalibrate detectPlatform oneClick wowFactor immersive".data
    metadata := { renderTime := 0
                  memoryUsage := 0
                  fps := 60
                  constitutionScore := 0 }
    dna := { primaryConcepts := []
             emotionalProfile := { energy := 0, complexity := 0, elegance := 0 }
             technicalRequirements := { performance := 0
                                        memory := 0
                                        compatibility := [] }
             confidenceScore := 0
             constitutionCompliance := false } }

/-- The value of `enforceCompliance e3`: one competitive-advantage block
appended, score 50. -/
def e3A : ClientConstitution.GeneratedEffect :=
  { e3 with
    code := e3.code ++ ClientConstitution.competitiveBlock
    metadata := { renderTime := 0
                  memoryUsage := 0
                  fps := 60
                  constitutionScore := 50 } }

/-- C3 counterexample: article 7's enforcer appends its competitive-advantage
block unconditionally, so running `enforceCompliance` twice on `e3` duplicates
the block — the fragment `enableUltraHighPerformance` occurs once after the
first run and twice after the second. -/
theorem C3_counterexample_duplicate_competitive_block :
    countOccur "enableUltraHighPerformance".data
      (ClientConstitution.enforceCompliance e3).code = 1
    ∧ countOccur "enableUltraHighPerformance".data
      (ClientConstitution.enforceCompliance
        (ClientConstitution.enforceCompliance e3)).code = 2 := by
  have g1 : ClientConstitution.articleScore 1
      (ClientConstitution.applyArticles e3) = 100 := by
    have hv : ClientConstitution.validator 1
        (ClientConstitution.applyArticles e3) = true := by decide
    simp [ClientConstitution.articleScore, hv]
  have g2 : ClientConstitution.articleScore 2
      (ClientConstitution.applyArticles e3) = 50 := by
    have hv : ClientConstitution.validator 2
        (ClientConstitution.applyArticles e3) = false := by decide
    have hp : substrB "autoCalibrate".data
        (ClientConstitution.applyArticles e3).code = true := by decide
    simp [ClientConstitution.articleScore, hv,
      ClientConstitution.calculatePartialScore, hp]
  have g3 : ClientConstitution.articleScore 3
      (ClientConstitution.applyArticles e3) = 50 := by
    have hv : ClientConstitution.validator 3
        (ClientConstitution.applyArticles e3) = false := by decide
    have hp : substrB "detectPlatform".data
        (ClientConstitution.applyArticles e3).code = true := by decide
    simp [ClientConstitution.articleScore, hv,
      ClientConstitution.calculatePartialScore, hp]
  have g4 : ClientConstitution.articleScore 4
      (ClientConstitution.applyArticles e3) = 50 := by
    have hv : ClientConstitution.validator 4
        (ClientConstitution.applyArticles e3) = false := by decide
    have hp : substrB "oneClick".data
        (ClientConstitution.applyArticles e3).code = true := by decide
    simp [ClientConstitution.articleScore, hv,
      ClientConstitution.calculatePartialScore, hp]
  have g5 : ClientConstitution.articleScore 5
      (ClientConstitution.applyArticles e3) = 0 := by
    have hv : ClientConstitution.validator 5
        (ClientConstitution.applyArticles e3) = false := by decide
    simp only [ClientConstitution.articleScore, hv,
      ClientConstitution.calculatePartialScore, Bool.false_eq_true, if_false]
    rw [show (ClientConstitution.applyArticles e3).dna.emotionalProfile.elegance
      = 0 from by decide]
    norm_num
  have g6 : ClientConstitution.articleScore 6
      (ClientConstitution.applyArticles e3) = 0 := by
    have hv : ClientConstitution.validator 6
        (ClientConstitution.applyArticles e3) = false := by decide
    simp only [ClientConstitution.articleScore, hv,
      ClientConstitution.calculatePartialScore, Bool.false_eq_true, if_false]
    rw [show (ClientConstitution.applyArticles e3).dna.emotionalProfile.energy
      = 0 from by decide]
    norm_num
  have g7 : ClientConstitution.articleScore 7
      (ClientConstitution.applyArticles e3) = 100 := by
    have hv : ClientConstitution.validator 7
        (ClientConstitution.applyArticles e3) = true := by decide
    simp [ClientConstitution.articleScore, hv]
  have hsum : (ClientConstitution.articleIds.map fun i =>
      ClientConstitution.articleScore i
        (ClientConstitution.applyArticles e3)).sum = 350 := by
    simp only [ClientConstitution.articleIds, List.map_cons, List.map_nil,
      List.sum_cons, List.sum_nil]
    rw [g1, g2, g3, g4, g5, g6, g7]
    norm_num
  have hE : ClientConstitution.enforceCompliance e3 = e3A := by
    have h0 : (ClientConstitution.enforceCompliance e3).metadata.constitutionScore
        = 50 := by
      rw [ClientConstitution.enforceCompliance_score, hsum]
      norm_num [jsRound]
    have h1 : ClientConstitution.enforceCompliance e3
        = { ClientConstitution.applyArticles e3 with
            metadata := { (ClientConstitution.applyArticles e3).metadata with
              constitutionScore :=
                (ClientConstitution.enforceCompliance e3).metadata.constitutionScore } } := by
      simp only [ClientConstitution.enforceCompliance]
    rw [h1, h0]
    decide
  refine ⟨by decide, ?_⟩
  rw [hE]
  decide

theorem C3_guarded_enforcers_and_monotone_score_witness :
    e3.dna.emotionalProfile.energy ≤ 1
    ∧ e3.dna.emotionalProfile.elegance ≤ 1
    ∧ ((substrB "autoCalibrate".data e3.code = true →
        ClientConstitution.enforcer 2 e3 = e3)
      ∧ (substrB "detectPlatform".data e3.code = true →
        ClientConstitution.enforcer 3 e3 = e3)
      ∧ (substrB "oneClick".data e3.code = true →
        ClientConstitution.enforcer 4 e3 = e3)
      ∧ (substrB "wowFactor".data e3.code = true →
        ClientConstitution.enforcer 5 e3 = e3)
      ∧ (substrB "immersive".data e3.code = true →
        ClientConstitution.enforcer 6 e3 = e3)
      ∧ (ClientConstitution.enforceCompliance
            (ClientConstitution.enforceCompliance e3)).metadata.constitutionScore
          ≥ (ClientConstitution.enforceCompliance e3).metadata.constitutionScore) :=
  ⟨by norm_num [e3], by norm_num [e3],
    C3_guarded_enforcers_and_monotone_score e3 (by norm_num [e3])
      (by norm_num [e3])⟩
